import Mathlib

/-!
Verification development for the prognosec "filebase" subsystem.

Shallow embedding of:
  * `progutils/_typechecks.py` (type-rule validation and conversion),
  * `filebase/_meta.py` (`MetaTemplate`, `Meta`),
  * `filebase/_filebase.py` (`DatabaseManager`, `TableMonolithic`,
    `generate_index_monolithic`, `init_database`).

Python values are modelled by `PyVal`; Python exceptions by `PyErr` inside
`Except`; the file system by an explicit `Disk` record.  Functions that
mutate `self` in Python return updated state, and an exception raised midway
carries the partially mutated state, exactly as the Python objects would
keep it.
-/

namespace Prognosec

/-- Model of Python runtime values as they occur in the filebase subsystem.
Floats are modelled as exact rationals (numerator/denominator); no claim
computes with float arithmetic.  `VDict` keeps insertion-ordered key/value
entries with unique keys, like a Python `dict`. -/
inductive PyVal where
  | VNone
  | VBool (b : Bool)
  | VInt (n : Int)
  | VFloat (num : Int) (den : Nat)
  | VStr (s : String)
  | VDate (y m d : Nat)
  | VDateTime (y mo d h mi s micro : Nat)
  | VList (xs : List PyVal)
  | VTuple (xs : List PyVal)
  | VSet (xs : List PyVal)
  | VDict (entries : List (PyVal × PyVal))
  deriving Repr, Inhabited

open PyVal

mutual
/-- Python `==` on the modelled values.  Python's `bool` is a subclass of
`int`, so `True == 1`; the remaining cases are structural.  (Float/int
cross-type equality is not modelled; no claim compares a float to an int.) -/
def pyValBEq : PyVal → PyVal → Bool
  | .VNone, .VNone => true
  | .VBool a, .VBool b => a == b
  | .VBool a, .VInt n => (if a then (1 : Int) else 0) == n
  | .VInt n, .VBool a => n == (if a then (1 : Int) else 0)
  | .VInt a, .VInt b => a == b
  | .VFloat a b, .VFloat c d => a == c && b == d
  | .VStr a, .VStr b => a == b
  | .VDate a b c, .VDate x y z => a == x && b == y && c == z
  | .VDateTime a b c d e f g, .VDateTime p q r s t u v =>
      a == p && b == q && c == r && d == s && e == t && f == u && g == v
  | .VList xs, .VList ys => pyListBEq xs ys
  | .VTuple xs, .VTuple ys => pyListBEq xs ys
  | .VSet xs, .VSet ys => pyListBEq xs ys
  | .VDict xs, .VDict ys => pyEntriesBEq xs ys
  | _, _ => false

def pyListBEq : List PyVal → List PyVal → Bool
  | [], [] => true
  | x :: xs, y :: ys => pyValBEq x y && pyListBEq xs ys
  | _, _ => false

def pyEntriesBEq : List (PyVal × PyVal) → List (PyVal × PyVal) → Bool
  | [], [] => true
  | (k1, v1) :: r1, (k2, v2) :: r2 =>
      pyValBEq k1 k2 && pyValBEq v1 v2 && pyEntriesBEq r1 r2
  | _, _ => false
end

/-- Python exceptions that the embedded code can raise. -/
inductive PyErr where
  | valueError (msg : String)
  | typeError (msg : String)
  | keyError (msg : String)
  | indexError (msg : String)
  | attributeError (msg : String)
  | fileExistsError (msg : String)
  | fileNotFoundError (msg : String)
  deriving Repr, DecidableEq

/-- The Python types that `types_str2object` can name. -/
inductive PyType where
  | TInt | TStr | TBool | TFloat | TSet | TList | TTuple | TDict
  | TNdarray | TDate | TDateTime | TTime | TCallable
  deriving Repr, DecidableEq

/-- Python `isinstance` on the modelled values.  `bool` is a subclass of
`int` and `datetime` a subclass of `date`, as in CPython.  The model holds
no numpy arrays, `time` objects or callables, so those checks are `false`. -/
def pyIsInstance : PyVal → PyType → Bool
  | .VBool _, .TInt => true
  | .VInt _, .TInt => true
  | .VBool _, .TBool => true
  | .VFloat _ _, .TFloat => true
  | .VStr _, .TStr => true
  | .VList _, .TList => true
  | .VTuple _, .TTuple => true
  | .VSet _, .TSet => true
  | .VDict _, .TDict => true
  | .VDate _ _ _, .TDate => true
  | .VDateTime _ _ _ _ _ _ _, .TDate => true
  | .VDateTime _ _ _ _ _ _ _, .TDateTime => true
  | _, _ => false

/-- Python `value is None`. -/
def pyIsNone : PyVal → Bool
  | .VNone => true
  | _ => false

/-- An ASCII single-quote character, used when building Python error
message strings. -/
def sq : String := String.singleton (Char.ofNat 39)

/-- Zero-padded decimal rendering, for `strftime`-style formatting. -/
def padNat (width n : Nat) : String :=
  let s := toString n
  if s.length < width then String.mk (List.replicate (width - s.length) '0') ++ s else s

mutual
/-- Python `str()` of a value (as used in f-string error messages).
Elements inside containers are rendered with `repr()`, i.e. strings are
quoted. -/
def pyStr : PyVal → String
  | .VNone => "None"
  | .VBool b => if b then "True" else "False"
  | .VInt n => toString n
  | .VFloat num den => toString num ++ "/" ++ toString den
  | .VStr s => s
  | .VDate y m d => padNat 4 y ++ "-" ++ padNat 2 m ++ "-" ++ padNat 2 d
  | .VDateTime y mo d h mi s micro =>
      padNat 4 y ++ "-" ++ padNat 2 mo ++ "-" ++ padNat 2 d ++ " " ++
      padNat 2 h ++ ":" ++ padNat 2 mi ++ ":" ++ padNat 2 s ++
      (if micro = 0 then "" else "." ++ padNat 6 micro)
  | .VList xs => "[" ++ pyStrJoin xs ++ "]"
  | .VTuple xs => "(" ++ pyStrJoin xs ++ (if xs.length = 1 then ",)" else ")")
  | .VSet xs => "\x7b" ++ pyStrJoin xs ++ "\x7d"
  | .VDict es => "\x7b" ++ pyStrJoinEntries es ++ "\x7d"

def pyStrJoin : List PyVal → String
  | [] => ""
  | [x] =>
      (match x with
       | .VStr s => sq ++ s ++ sq
       | v => pyStr v)
  | x :: xs =>
      (match x with
       | .VStr s => sq ++ s ++ sq
       | v => pyStr v) ++ ", " ++ pyStrJoin xs

def pyStrJoinEntries : List (PyVal × PyVal) → String
  | [] => ""
  | [(k, v)] =>
      (match k with
       | .VStr s => sq ++ s ++ sq
       | w => pyStr w) ++ ": " ++
      (match v with
       | .VStr s => sq ++ s ++ sq
       | w => pyStr w)
  | (k, v) :: es =>
      (match k with
       | .VStr s => sq ++ s ++ sq
       | w => pyStr w) ++ ": " ++
      (match v with
       | .VStr s => sq ++ s ++ sq
       | w => pyStr w) ++ ", " ++ pyStrJoinEntries es
end

/-- Python `repr()` of a value. -/
def pyRepr : PyVal → String
  | .VStr s => sq ++ s ++ sq
  | v => pyStr v

/-- Python iteration (`for i in value`): lists/tuples/sets yield elements,
dicts yield keys, strings yield one-character strings; everything else
raises `TypeError`. -/
def pyIterate : PyVal → Except PyErr (List PyVal)
  | .VList xs => .ok xs
  | .VTuple xs => .ok xs
  | .VSet xs => .ok xs
  | .VDict es => .ok (es.map Prod.fst)
  | .VStr s => .ok (s.data.map (fun c => PyVal.VStr (String.singleton c)))
  | v => .error (.typeError (sq ++ pyStr v ++ sq ++ " object is not iterable"))

/-- Membership with Python `==` semantics in a dict entry list. -/
def pyEntriesContains (es : List (PyVal × PyVal)) (k : PyVal) : Bool :=
  es.any (fun e => pyValBEq e.fst k)

/-- `d[k] = v` on a dict entry list: replace in place or append. -/
def pyEntriesSet (es : List (PyVal × PyVal)) (k v : PyVal) : List (PyVal × PyVal) :=
  match es with
  | [] => [(k, v)]
  | (k0, v0) :: rest =>
      if pyValBEq k0 k then (k0, v) :: rest else (k0, v0) :: pyEntriesSet rest k v

/-- Lookup with Python `==` semantics in a dict entry list. -/
def pyEntriesGet (es : List (PyVal × PyVal)) (k : PyVal) : Option PyVal :=
  match es with
  | [] => none
  | (k0, v0) :: rest => if pyValBEq k0 k then some v0 else pyEntriesGet rest k

/-- Python `in` for the containers the source uses it on. -/
def pyContains (container needle : PyVal) : Except PyErr Bool :=
  match container with
  | .VList xs => .ok (xs.any (pyValBEq needle))
  | .VTuple xs => .ok (xs.any (pyValBEq needle))
  | .VSet xs => .ok (xs.any (pyValBEq needle))
  | .VDict es => .ok (pyEntriesContains es needle)
  | v => .error (.typeError ("argument of type " ++ sq ++ pyStr v ++ sq ++ " is not a container"))

/-! ### Python string helpers

The type-rule functions in `_typechecks.py` manipulate the rule string with
`count`, `find`, `split`, `rsplit` and `index`.  The helpers below implement
those operations on `List Char` with Python semantics. -/

/-- `s.count(c)` for a single-character needle. -/
def countChar (cs : List Char) (c : Char) : Nat :=
  (cs.filter (fun x => x = c)).length

/-- Whether the two-character substring `a ++ b` occurs. -/
def hasSub2 : List Char → Char → Char → Bool
  | [], _, _ => false
  | [_], _, _ => false
  | x :: y :: rest, a, b => (x = a && y = b) || hasSub2 (y :: rest) a b

/-- `s.index(ab)` for a two-character needle: position of first occurrence. -/
def idxSub2 : List Char → Char → Char → Option Nat
  | [], _, _ => none
  | [_], _, _ => none
  | x :: y :: rest, a, b =>
      if x = a ∧ y = b then some 0
      else (idxSub2 (y :: rest) a b).map Nat.succ

/-- `s.split(c, 1)`: the parts before and after the first occurrence of `c`
(`none` when `c` does not occur). -/
def splitFirstChar (cs : List Char) (c : Char) : Option (List Char × List Char) :=
  match cs with
  | [] => none
  | x :: rest =>
      if x = c then some ([], rest)
      else (splitFirstChar rest c).map (fun p => (x :: p.1, p.2))

/-- `s.rsplit(c, 1)[0]`: everything before the last occurrence of `c`, or
the whole string when `c` does not occur. -/
def beforeLastChar (cs : List Char) (c : Char) : List Char :=
  match splitFirstChar cs.reverse c with
  | none => cs
  | some p => p.2.reverse

/-- Python `s.split(c)` (full split; never returns an empty list). -/
def splitAllChar (cs : List Char) (c : Char) : List (List Char) :=
  match cs with
  | [] => [[]]
  | x :: rest =>
      if x = c then [] :: splitAllChar rest c
      else
        match splitAllChar rest c with
        | [] => [[x]]
        | l :: ls => (x :: l) :: ls

/-- The normalisation `typerule.replace(' ', '').lower()` applied by
`apply_typerule`. -/
def normRule (s : String) : List Char :=
  (s.data.filter (fun c => c ≠ ' ')).map Char.toLower

/-- The normalisation `typerule.replace(' ', '').replace('~', '').lower()`
applied by `conforms_typerule`. -/
def normRuleTilde (s : String) : List Char :=
  (s.data.filter (fun c => c ≠ ' ' ∧ c ≠ '~')).map Char.toLower

/-! ### `_typechecks.types_str2object` and `types_converters` -/

/-- `types_str2object`: maps a primitive type-rule name to a Python type
object (`none` models the Python value `None`, the mapping target of the
rule names `none`/`null`).  Unknown names raise
`ValueError('Invalid typerule specification')` (the source catches the
dict `KeyError` and re-raises). -/
def types_str2object (name : String) : Except PyErr (Option PyType) :=
  if name = "int" then .ok (some .TInt)
  else if name = "str" then .ok (some .TStr)
  else if name = "bool" then .ok (some .TBool)
  else if name = "float" then .ok (some .TFloat)
  else if name = "set" then .ok (some .TSet)
  else if name = "list" then .ok (some .TList)
  else if name = "tuple" then .ok (some .TTuple)
  else if name = "dict" then .ok (some .TDict)
  else if name = "ndarray" then .ok (some .TNdarray)
  else if name = "date" then .ok (some .TDate)
  else if name = "datetime" then .ok (some .TDateTime)
  else if name = "datetime_second" then .ok (some .TDateTime)
  else if name = "datetime_microsecond" then .ok (some .TDateTime)
  else if name = "time" then .ok (some .TTime)
  else if name = "none" then .ok none
  else if name = "null" then .ok none
  else if name = "function" then .ok (some .TCallable)
  else if name = "callable" then .ok (some .TCallable)
  else .error (.valueError "Invalid typerule specification")

/-! ### `_typechecks.conforms_typerule` -/

/-- `_seq_or_split(typerule)`: splits a rule at a top-level `]|` into the
constituent union variants, re-balancing brackets on each side.  The
`fuel` argument bounds the recursion (every recursive call is on a shorter
string, so `length + 1` fuel always suffices; running out is unreachable
and modelled as a `ValueError`).  When the right side is missing more than
one bracket the Python loop concatenates a `str` with a `list` on its
second iteration and raises `TypeError`; the model raises it after the
first recursive call. -/
def seqOrSplit (fuel : Nat) (tr : List Char) : Except PyErr (List (List Char)) :=
  match fuel with
  | 0 => .error (.valueError "model: fuel exhausted")
  | fuel + 1 =>
    match idxSub2 tr ']' '|' with
    | none => .ok [tr]
    | some i =>
      let left0 := tr.take i
      let right0 := tr.drop (i + 2)
      let left :=
        if countChar left0 '[' ≠ countChar left0 ']' then
          left0 ++ List.replicate (countChar left0 '[' - countChar left0 ']') ']'
        else left0
      if countChar right0 '[' < countChar right0 ']' then
        let missing := countChar right0 ']' - countChar right0 '['
        match splitFirstChar left '[' with
        | none => .error (.valueError "substring not found")
        | some (subLeft, _) =>
          let right1 := subLeft ++ '[' :: right0
          -- `left_rule.rindex(']')` raises ValueError when ']' is absent
          if ']' ∈ left then
            match seqOrSplit fuel right1 with
            | .error e => .error e
            | .ok rs =>
                if missing > 1 then
                  .error (.typeError "can only concatenate str (not list) to str")
                else .ok (left :: rs)
          else .error (.valueError "substring not found")
      else .ok [left, right0]

/-- The inner `conformance` worker of `conforms_typerule`.  Mirrors the
source branch for branch; in particular it performs NO exception handling:
`value.keys()` on a non-dict raises `AttributeError`, unknown rule names
raise `ValueError`, and those exceptions propagate to the caller.  `fuel`
bounds the recursion; every recursive call uses a strictly shorter rule
string, so the `length + 1` fuel supplied by `conforms_typerule` always
suffices. -/
def conformance (fuel : Nat) (value : PyVal) (tr : List Char) : Except PyErr Bool :=
  match fuel with
  | 0 => .error (.valueError "model: fuel exhausted")
  | fuel + 1 =>
    if countChar tr '[' ≠ countChar tr ']' then
      .error (.valueError "Invalid typerule specification")
    else if ('[' ∈ tr) ∧ ¬ hasSub2 tr ']' '|' then
      match splitFirstChar tr '[' with
      | none => .error (.valueError "model: unreachable, bracket is present")
      | some (seqtype, rest) =>
        let elemtype := beforeLastChar rest ']'
        if String.mk seqtype = "dict" then
          match value with
          | .VDict entries =>
            -- dict_keytype, dict_valuetype = elemtype.split(',', 1)
            match splitFirstChar elemtype ',' with
            | none => .error (.valueError "not enough values to unpack (expected 2, got 1)")
            | some (keytype, valuetype) => do
              let ks ← (entries.map Prod.fst).mapM (fun k => conformance fuel k keytype)
              let vs ← (entries.map Prod.snd).mapM (fun v => conformance fuel v valuetype)
              pure ((ks ++ vs).all id)
          | v =>
            .error (.attributeError
              (sq ++ pyStr v ++ sq ++ " object has no attribute " ++ sq ++ "keys" ++ sq))
        else
          match types_str2object (String.mk seqtype) with
          | .error e => .error e
          | .ok none => .error (.typeError "isinstance() arg 2 must be a type")
          | .ok (some t) =>
            if pyIsInstance value t then
              match pyIterate value with
              | .error e => .error e
              | .ok elems => do
                let bs ← elems.mapM (fun x => conformance fuel x elemtype)
                pure (bs.all id)
            else .ok false
    else if hasSub2 tr ']' '|' then
      match seqOrSplit fuel tr with
      | .error e => .error e
      | .ok subs => do
        let bs ← subs.mapM (fun s => conformance fuel value s)
        pure (bs.any id)
    else if '|' ∈ tr then do
      let bs ← (splitAllChar tr '|').mapM (fun s => conformance fuel value s)
      pure (bs.any id)
    else
      if String.mk tr = "primitive" then
        .ok (pyIsInstance value .TInt || pyIsInstance value .TFloat ||
             pyIsInstance value .TBool || pyIsInstance value .TStr || pyIsNone value)
      else
        match types_str2object (String.mk tr) with
        | .error e => .error e
        | .ok none => .ok (pyIsNone value)
        | .ok (some t) => .ok (pyIsInstance value t)

/-- `conforms_typerule(value, typerule)` from `_typechecks.py`: normalises
the rule string (strip spaces and `~`, lowercase) and runs `conformance`.
Note that, unlike the retired `database.py` variant, this function has no
`try/except` around the check: exceptions raised while checking propagate. -/
def conforms_typerule (value : PyVal) (typerule : String) : Except PyErr Bool :=
  let tr := normRuleTilde typerule
  conformance (tr.length + 1) value tr

/-! ### `_typechecks.apply_typerule` -/

/-- Truthiness, for Python's `bool(x)` converter. -/
def pyTruthy : PyVal → Bool
  | .VNone => false
  | .VBool b => b
  | .VInt n => n ≠ 0
  | .VFloat num _ => num ≠ 0
  | .VStr s => s ≠ ""
  | .VList xs => !xs.isEmpty
  | .VTuple xs => !xs.isEmpty
  | .VSet xs => !xs.isEmpty
  | .VDict es => !es.isEmpty
  | .VDate _ _ _ => true
  | .VDateTime _ _ _ _ _ _ _ => true

/-- Parse a non-empty run of decimal digits. -/
def parseDigits (cs : List Char) : Option Nat :=
  if cs ≠ [] ∧ cs.all Char.isDigit then
    some (cs.foldl (fun acc c => acc * 10 + (c.toNat - 48)) 0)
  else none

/-- Python `int(str)`: optional sign, then digits (whitespace trimmed). -/
def parsePyInt (s : String) : Option Int :=
  let cs := s.data.filter (fun c => c ≠ ' ')
  match cs with
  | '-' :: rest => (parseDigits rest).map (fun n => -(n : Int))
  | '+' :: rest => (parseDigits rest).map (fun n => (n : Int))
  | _ => (parseDigits cs).map (fun n => (n : Int))

/-- Python `int(x)` applied to a modelled value. -/
def pyToInt : PyVal → Except PyErr PyVal
  | .VInt n => .ok (.VInt n)
  | .VBool b => .ok (.VInt (if b then 1 else 0))
  | .VFloat num den => .ok (.VInt (Int.tdiv num (den : Int)))
  | .VStr s =>
      match parsePyInt s with
      | some n => .ok (.VInt n)
      | none => .error (.valueError
          ("invalid literal for int() with base 10: " ++ sq ++ s ++ sq))
  | v => .error (.typeError
      ("int() argument must be a string or a number, not " ++ sq ++ pyStr v ++ sq))

/-- Python `float(x)` applied to a modelled value. -/
def pyToFloat : PyVal → Except PyErr PyVal
  | .VFloat num den => .ok (.VFloat num den)
  | .VInt n => .ok (.VFloat n 1)
  | .VBool b => .ok (.VFloat (if b then 1 else 0) 1)
  | .VStr s =>
      let core := s.data.filter (fun c => c ≠ ' ')
      let signed : Bool × List Char :=
        match core with
        | '-' :: rest => (true, rest)
        | '+' :: rest => (false, rest)
        | _ => (false, core)
      (match splitFirstChar signed.2 '.' with
       | none =>
          match parseDigits signed.2 with
          | some n => .ok (.VFloat (if signed.1 then -(n : Int) else (n : Int)) 1)
          | none => .error (.valueError ("could not convert string to float: " ++ sq ++ s ++ sq))
       | some (ip, fp) =>
          match parseDigits ip, parseDigits fp with
          | some i, some f =>
              let den := 10 ^ fp.length
              let num : Int := (i * den + f : Nat)
              .ok (.VFloat (if signed.1 then -num else num) den)
          | _, _ => .error (.valueError ("could not convert string to float: " ++ sq ++ s ++ sq)))
  | v => .error (.typeError
      ("float() argument must be a string or a number, not " ++ sq ++ pyStr v ++ sq))

/-- Deduplicate with Python `==`, keeping first occurrences (the model of
`set(...)` construction). -/
def pyDedupAux : List PyVal → List PyVal → List PyVal
  | _, [] => []
  | seen, x :: xs =>
      if seen.any (fun s => pyValBEq s x) then pyDedupAux seen xs
      else x :: pyDedupAux (x :: seen) xs

def pyDedup (xs : List PyVal) : List PyVal := pyDedupAux [] xs

/-- `progutils.isostr2dt`: parse an ISO-8601 string with `strptime` under the
flags `hastime`/`hasmicro`.  A trailing `Z` is stripped first, and when
`hasmicro` is false the fractional part is dropped with `partition('.')`.
Parse failure raises `ValueError`; a non-string input raises
`AttributeError` (the source calls `.endswith` on it). -/
def isostr2dt (hastime hasmicro : Bool) (v : PyVal) : Except PyErr PyVal :=
  match v with
  | .VStr s =>
    let cs0 := s.data
    let cs1 := if cs0.reverse.head? = some 'Z' then cs0.filter (fun c => c ≠ 'Z') else cs0
    let cs2 :=
      if hasmicro then cs1
      else match splitFirstChar cs1 '.' with
        | none => cs1
        | some (l, _) => l
    let fail : Except PyErr PyVal :=
      .error (.valueError ("time data " ++ sq ++ s ++ sq ++ " does not match format"))
    let parseYmd (dcs : List Char) : Option (Nat × Nat × Nat) :=
      match splitAllChar dcs '-' with
      | [ys, ms, ds] =>
        match parseDigits ys, parseDigits ms, parseDigits ds with
        | some y, some m, some d =>
            if 1 ≤ m ∧ m ≤ 12 ∧ 1 ≤ d ∧ d ≤ 31 then some (y, m, d) else none
        | _, _, _ => none
      | _ => none
    if hastime then
      match splitAllChar cs2 'T' with
      | [dcs, tcs] =>
        match parseYmd dcs with
        | none => fail
        | some (y, m, d) =>
          let timeParts := splitAllChar tcs ':'
          match timeParts with
          | [hcs, mics, scs] =>
            let secPieces :=
              if hasmicro then splitFirstChar scs '.' else some (scs, [])
            match secPieces with
            | none => fail
            | some (sints, sfrac) =>
              match parseDigits hcs, parseDigits mics, parseDigits sints with
              | some h, some mi, some sec =>
                if h ≤ 23 ∧ mi ≤ 59 ∧ sec ≤ 59 then
                  if hasmicro then
                    match parseDigits sfrac with
                    | some f =>
                        if sfrac.length ≤ 6 then
                          .ok (.VDateTime y m d h mi sec (f * 10 ^ (6 - sfrac.length)))
                        else fail
                    | none => fail
                  else .ok (.VDateTime y m d h mi sec 0)
                else fail
              | _, _, _ => fail
          | _ => fail
      | _ => fail
    else
      match parseYmd cs2 with
      | some (y, m, d) => .ok (.VDate y m d)
      | none => fail
  | v => .error (.attributeError
      (sq ++ pyStr v ++ sq ++ " object has no attribute " ++ sq ++ "endswith" ++ sq))

/-- `value[key]` as used by the dict branch of `apply_typerule`. -/
def pySubscript (v k : PyVal) : Except PyErr PyVal :=
  match v with
  | .VDict es =>
      match pyEntriesGet es k with
      | some x => .ok x
      | none => .error (.keyError (pyRepr k))
  | .VList xs =>
      match k with
      | .VInt n =>
          match xs.get? n.toNat with
          | some x => if 0 ≤ n then .ok x else .error (.indexError "list index out of range")
          | none => .error (.indexError "list index out of range")
      | _ => .error (.typeError "list indices must be integers")
  | .VTuple xs =>
      match k with
      | .VInt n =>
          match xs.get? n.toNat with
          | some x => if 0 ≤ n then .ok x else .error (.indexError "tuple index out of range")
          | none => .error (.indexError "tuple index out of range")
      | _ => .error (.typeError "tuple indices must be integers")
  | v => .error (.typeError (sq ++ pyStr v ++ sq ++ " object is not subscriptable"))

/-- `types_converters(typerule)` applied to a value: the per-primitive
converter table of `_typechecks.py`.  `none`/`null` map to `returner`,
which returns Python `None`.  `ndarray` (numpy) and `time` construction are
outside the model and raise `TypeError`; no type rule in the repository
uses them for conversion.  An unknown name raises
`ValueError('Invalid typerule specification')`. -/
def types_converters_apply (name : String) (v : PyVal) : Except PyErr PyVal :=
  if name = "int" then pyToInt v
  else if name = "str" then .ok (.VStr (pyStr v))
  else if name = "bool" then .ok (.VBool (pyTruthy v))
  else if name = "float" then pyToFloat v
  else if name = "set" then (pyIterate v).map (fun xs => .VSet (pyDedup xs))
  else if name = "list" then (pyIterate v).map (fun xs => .VList xs)
  else if name = "tuple" then (pyIterate v).map (fun xs => .VTuple xs)
  else if name = "dict" then
    match v with
    | .VDict es => .ok (.VDict es)
    | _ => .error (.typeError "cannot convert to dict")
  else if name = "ndarray" then .error (.typeError "model: numpy arrays are not modelled")
  else if name = "date" then isostr2dt false false v
  else if name = "datetime" then isostr2dt true false v
  else if name = "datetime_second" then isostr2dt true false v
  else if name = "datetime_microsecond" then isostr2dt true true v
  else if name = "time" then .error (.typeError "model: datetime.time is not modelled")
  else if name = "none" then .ok .VNone
  else if name = "null" then .ok .VNone
  else .error (.valueError "Invalid typerule specification")

/-- The inner `typerule_converter` worker of `apply_typerule`.  As in
`conformance`, `fuel` only bounds the recursion and `length + 1` always
suffices. -/
def typerule_converter (fuel : Nat) (value : PyVal) (tr : List Char) : Except PyErr PyVal :=
  match fuel with
  | 0 => .error (.valueError "model: fuel exhausted")
  | fuel + 1 =>
    if countChar tr '[' ≠ countChar tr ']' then
      .error (.valueError "Invalid typerule specification")
    else if '[' ∈ tr then
      match splitFirstChar tr '[' with
      | none => .error (.valueError "model: unreachable, bracket is present")
      | some (seqtype, rest) =>
        let elemtype := beforeLastChar rest ']'
        if String.mk seqtype = "dict" then
          match splitFirstChar elemtype ',' with
          | none => .error (.valueError "not enough values to unpack (expected 2, got 1)")
          | some (keytype, valuetype) =>
            match pyIterate value with
            | .error e => .error e
            | .ok ks => do
              let es ← ks.mapM (fun k => do
                let newKey ← typerule_converter fuel k keytype
                let kv ← pySubscript value k
                let newVal ← typerule_converter fuel kv valuetype
                pure (newKey, newVal))
              pure (.VDict (es.foldl (fun acc e => pyEntriesSet acc e.1 e.2) []))
        else
          match pyIterate value with
          | .error e => .error e
          | .ok elems => do
            let converted ← elems.mapM (fun x => typerule_converter fuel x elemtype)
            types_converters_apply (String.mk seqtype) (.VList converted)
    else
      types_converters_apply (String.mk tr) value

/-- `apply_typerule(value, typerule)` from `_typechecks.py`.  The rule is
normalised with `replace(' ', '').lower()` and then, BEFORE any conversion,
any rule containing the OR operator `|` is rejected with
`ValueError('typerule conversion does not support OR operator')`. -/
def apply_typerule (value : PyVal) (typerule : String) : Except PyErr PyVal :=
  let tr := normRule typerule
  if countChar tr '|' > 0 then
    .error (.valueError "typerule conversion does not support OR operator")
  else typerule_converter (tr.length + 1) value tr

/-! ### `_meta.py`: `MetaTemplate`, `MetaDatabaseTemplate`, `MetaTableTemplate`, `Meta` -/

/-- One `(typerule, required, default)` typespec of a `MetaTemplate`. -/
structure TemplateEntry where
  key : String
  typerule : String
  required : Bool
  default : PyVal
  deriving Repr

/-- A frozen `MetaTemplate`: the ordered field specifications.  The claims
only exercise the two fully populated, frozen singletons below, so the
dynamic `add_typespec`/freeze machinery is not embedded. -/
structure MetaTemplate where
  entries : List TemplateEntry
  deriving Repr

/-- `MetaTemplate.get_typerule` (raises `KeyError` for unknown keys). -/
def MetaTemplate.get_typerule (t : MetaTemplate) (key : String) : Except PyErr String :=
  match t.entries.find? (fun e => e.key = key) with
  | some e => .ok e.typerule
  | none => .error (.keyError
      ("key " ++ sq ++ key ++ sq ++ " is not a valid key. See " ++ sq ++
       "template_keys" ++ sq ++ " property"))

/-- `MetaTemplate.get_required`. -/
def MetaTemplate.get_required (t : MetaTemplate) (key : String) : Except PyErr Bool :=
  match t.entries.find? (fun e => e.key = key) with
  | some e => .ok e.required
  | none => .error (.keyError
      ("key " ++ sq ++ key ++ sq ++ " is not a valid key. See " ++ sq ++
       "template_keys" ++ sq ++ " property"))

/-- `MetaTemplate.get_default`. -/
def MetaTemplate.get_default (t : MetaTemplate) (key : String) : Except PyErr PyVal :=
  match t.entries.find? (fun e => e.key = key) with
  | some e => .ok e.default
  | none => .error (.keyError
      ("key " ++ sq ++ key ++ sq ++ " is not a valid key. See " ++ sq ++
       "template_keys" ++ sq ++ " property"))

/-- `MetaDatabaseTemplate.template_keys` (all specs added, then frozen). -/
def metaDatabaseTemplate : MetaTemplate :=
  ⟨[⟨"name", "str", true, .VNone⟩,
    ⟨"tables", "tuple[str]", true, .VNone⟩,
    ⟨"collections", "tuple[str]", true, .VNone⟩,
    ⟨"created", "datetime_second", true, .VNone⟩,
    ⟨"last_modified", "datetime_second", true, .VNone⟩,
    ⟨"total_table_records", "int", true, .VInt 0⟩,
    ⟨"total_documents", "int", true, .VInt 0⟩,
    ⟨"database_directory", "str", true, .VNone⟩,
    ⟨"database_root_directory", "str", true, .VNone⟩,
    ⟨"database_meta_location", "str", true, .VNone⟩,
    ⟨"database_data_root_directory", "str", true, .VNone⟩,
    ⟨"table_meta_locations", "dict[str, str]", true, .VNone⟩,
    ⟨"collection_meta_locations", "dict[str, str]", true, .VNone⟩]⟩

/-- `MetaTableTemplate.template_keys` (all specs added, then frozen). -/
def metaTableTemplate : MetaTemplate :=
  ⟨[⟨"name", "str", true, .VNone⟩,
    ⟨"created", "datetime_second", true, .VNone⟩,
    ⟨"last_modified", "datetime_second", true, .VNone⟩,
    ⟨"columns", "tuple[str]", true, .VNone⟩,
    ⟨"datatypes", "tuple[str]", true, .VNone⟩,
    ⟨"keys", "tuple[str]", true, .VNone⟩,
    ⟨"foreign", "dict[str, str]", false, .VNone⟩,
    ⟨"enforce_integrity", "bool", true, .VNone⟩,
    ⟨"nrecords", "int", true, .VNone⟩,
    ⟨"database_directory", "str", true, .VNone⟩,
    ⟨"table_directory", "str", true, .VNone⟩,
    ⟨"index_file_location", "str", true, .VNone⟩,
    ⟨"meta_file_location", "str", true, .VNone⟩,
    ⟨"storage_type", "str", true, .VNone⟩,
    ⟨"splice_keys", "tuple[str]", false, .VNone⟩]⟩

/-- Association-list helpers for the `Meta` field dictionaries (keys come
from the template, so they are unique). -/
def assocGet : List (String × α) → String → Option α
  | [], _ => none
  | (k0, v0) :: rest, k => if k0 = k then some v0 else assocGet rest k

def assocSet (l : List (String × α)) (k : String) (v : α) : List (String × α) :=
  match l with
  | [] => []
  | (k0, v0) :: rest =>
      if k0 = k then (k0, v) :: rest else (k0, v0) :: assocSet rest k v

/-- A live `Meta` instance: field values plus per-field `edited` flags,
bound to one template. -/
structure Meta where
  template : MetaTemplate
  metadata : List (String × PyVal)
  keys_edited : List (String × Bool)
  deriving Repr

/-- `Meta.__init__` before the optional `metadata`/`metapath` loops: every
field starts at its template default with `edited = False`. -/
def Meta.init (t : MetaTemplate) : Meta :=
  { template := t
    metadata := t.entries.map (fun e => (e.key, e.default))
    keys_edited := t.entries.map (fun e => (e.key, false)) }

/-- `Meta.is_valid`: all fields edited at least once. -/
def Meta.is_valid (m : Meta) : Bool :=
  m.keys_edited.all (fun e => e.snd)

/-- The `Meta.metadata` read accessor: raises `KeyError` unless every field
has been edited. -/
def Meta.metadataAcc (m : Meta) : Except PyErr (List (String × PyVal)) :=
  if m.is_valid then .ok m.metadata
  else .error (.keyError "Not all required keys has been filled")

/-- `Meta.__getitem__` (used as `meta['key']` throughout `_filebase.py`):
goes through the validating accessor, then indexes. -/
def Meta.getitem (m : Meta) (key : String) : Except PyErr PyVal :=
  match m.metadataAcc with
  | .error e => .error e
  | .ok md =>
      match assocGet md key with
      | some v => .ok v
      | none => .error (.keyError (pyRepr (.VStr key)))

/-- `Meta.replace(key, value)`: type-check against the field's rule,
unconditionally overwrite, mark edited. -/
def Meta.replace (m : Meta) (key : String) (value : PyVal) : Except PyErr Meta :=
  if (assocGet m.metadata key).isNone then
    .error (.keyError ("Template did not define a key " ++ sq ++ key ++ sq))
  else
    match m.template.get_typerule key with
    | .error e => .error e
    | .ok tr =>
      match conforms_typerule value tr with
      | .error e => .error e
      | .ok false => .error (.typeError
          ("value " ++ sq ++ pyStr value ++ sq ++ " does not conform to typerule " ++
           sq ++ tr ++ sq))
      | .ok true =>
          .ok { m with metadata := assocSet m.metadata key value
                       keys_edited := assocSet m.keys_edited key true }

/-- Python `currvalue + value` for the tuple branch of `Meta.edit`. -/
def pyTupleConcat (a b : PyVal) : Except PyErr PyVal :=
  match a, b with
  | .VTuple xs, .VTuple ys => .ok (.VTuple (xs ++ ys))
  | .VTuple _, v => .error (.typeError
      ("can only concatenate tuple (not " ++ sq ++ pyStr v ++ sq ++ ") to tuple"))
  | _, _ => .error (.typeError "unsupported operand type(s) for +")

/-- `Meta.edit(key, value)`: type-check (with the required/None bypass),
then merge when the rule is container-rooted and the current value already
is that container (list extend, tuple concatenation, set union with its
result discarded — as in the source — and dict update); otherwise replace.
Marks the field edited. -/
def Meta.edit (m : Meta) (key : String) (value : PyVal) : Except PyErr Meta :=
  if (assocGet m.metadata key).isNone then
    .error (.keyError ("Template did not define a key " ++ sq ++ key ++ sq))
  else
    match m.template.get_typerule key with
    | .error e => .error e
    | .ok tr =>
      match m.template.get_required key with
      | .error e => .error e
      | .ok req =>
        let checked : Except PyErr Unit :=
          if req = false ∧ pyIsNone value then .ok ()  -- bandaid bypass for optional None
          else
            match conforms_typerule value tr with
            | .error e => .error e
            | .ok false => .error (.typeError
                ("value " ++ sq ++ pyStr value ++ sq ++ " does not conform to typerule " ++
                 sq ++ tr ++ sq))
            | .ok true => .ok ()
        match checked with
        | .error e => .error e
        | .ok () =>
          let newValue : Except PyErr PyVal :=
            if '[' ∈ tr.data then
              let rootstruct := String.mk (tr.data.takeWhile (fun c => c ≠ '['))
              let currvalue := (assocGet m.metadata key).getD .VNone
              match rootstruct, currvalue with
              | "list", .VList xs =>
                  (pyIterate value).map (fun ys => .VList (xs ++ ys))
              | "tuple", .VTuple xs =>
                  pyTupleConcat (.VTuple xs) value
              | "set", .VSet xs =>
                  -- `self._metadata[key].union(value)` returns a new set that
                  -- the source discards, so the stored value stays unchanged
                  (pyIterate value).map (fun _ => .VSet xs)
              | "dict", .VDict es =>
                  match value with
                  | .VDict more =>
                      .ok (.VDict (more.foldl (fun acc e => pyEntriesSet acc e.1 e.2) es))
                  | v => .error (.typeError
                      (sq ++ pyStr v ++ sq ++ " object is not a mapping"))
              | root, _ =>
                  if root = "list" ∨ root = "tuple" ∨ root = "set" ∨ root = "dict" then
                    .ok value
                  else .error (.typeError "Sequence-like object not supported")
            else .ok value
          match newValue with
          | .error e => .error e
          | .ok nv =>
              .ok { m with metadata := assocSet m.metadata key nv
                           keys_edited := assocSet m.keys_edited key true }

/-- `strftime` for the three datetime formats `Meta.write` can emit. -/
def strftimeDT (withT : Bool) (withMicro : Bool) (v : PyVal) : String :=
  match v with
  | .VDateTime y mo d h mi s micro =>
      if withT then
        padNat 4 y ++ "-" ++ padNat 2 mo ++ "-" ++ padNat 2 d ++ "T" ++
        padNat 2 h ++ ":" ++ padNat 2 mi ++ ":" ++ padNat 2 s ++
        (if withMicro then "." ++ padNat 6 micro else "") ++ "Z"
      else padNat 4 y ++ "-" ++ padNat 2 mo ++ "-" ++ padNat 2 d
  | .VDate y m d =>
      if withT then
        padNat 4 y ++ "-" ++ padNat 2 m ++ "-" ++ padNat 2 d ++ "T" ++
        "00:00:00" ++ (if withMicro then ".000000" else "") ++ "Z"
      else padNat 4 y ++ "-" ++ padNat 2 m ++ "-" ++ padNat 2 d
  | _ => ""

/-- `Meta.write(path)` up to the actual file dump: read the validating
accessor, format every `date`/`datetime` value according to its field's
typerule (`datetime_second`, `datetime_microsecond` or `datetime`; anything
else raises `TypeError`), and return the serialised document.  The caller
stores the result at the target path. -/
def Meta.write (m : Meta) : Except PyErr (List (String × PyVal)) :=
  match m.metadataAcc with
  | .error e => .error e
  | .ok md =>
      md.mapM (fun kv =>
        match kv.snd with
        | .VDate y mo d =>
            match m.template.get_typerule kv.fst with
            | .error e => .error e
            | .ok tr =>
                if tr = "datetime_second" then .ok (kv.fst, .VStr (strftimeDT true false (.VDate y mo d)))
                else if tr = "datetime_microsecond" then .ok (kv.fst, .VStr (strftimeDT true true (.VDate y mo d)))
                else if tr = "datetime" then .ok (kv.fst, .VStr (strftimeDT false false (.VDate y mo d)))
                else .error (.typeError "Datetime typerule is invalid")
        | .VDateTime y mo d h mi s micro =>
            match m.template.get_typerule kv.fst with
            | .error e => .error e
            | .ok tr =>
                if tr = "datetime_second" then
                  .ok (kv.fst, .VStr (strftimeDT true false (.VDateTime y mo d h mi s micro)))
                else if tr = "datetime_microsecond" then
                  .ok (kv.fst, .VStr (strftimeDT true true (.VDateTime y mo d h mi s micro)))
                else if tr = "datetime" then
                  .ok (kv.fst, .VStr (strftimeDT false false (.VDateTime y mo d h mi s micro)))
                else .error (.typeError "Datetime typerule is invalid")
        | v => .ok (kv.fst, v))

/-! ### `_filebase.py`: disk model, tables, `DatabaseManager` operations -/

/-- A record is a Python tuple of field values, one per column.  (`add`
wraps a single tuple argument into a one-element list; the embedding
receives the normalised list of records.) -/
abbrev Record := List PyVal

/-- The file system: a set of directories and a map `path -> content`.
JSON and pickle payloads are both stored as `PyVal` documents; the
round-trip through the encoding is the identity for the values the store
writes. -/
structure Disk where
  dirs : List String
  files : List (String × PyVal)
  deriving Repr

def assocUpsert (l : List (String × PyVal)) (k : String) (v : PyVal) : List (String × PyVal) :=
  match l with
  | [] => [(k, v)]
  | (k0, v0) :: rest =>
      if k0 = k then (k0, v) :: rest else (k0, v0) :: assocUpsert rest k v

/-- Write (create or overwrite) a file. -/
def diskWrite (d : Disk) (path : String) (content : PyVal) : Disk :=
  { d with files := assocUpsert d.files path content }

/-- `os.mkdir`: fails when the directory already exists. -/
def diskMkdir (d : Disk) (p : String) : Except PyErr Disk :=
  if p ∈ d.dirs then
    .error (.fileExistsError ("File exists: " ++ sq ++ p ++ sq))
  else .ok { d with dirs := d.dirs ++ [p] }

/-- `os.path.join` for the paths the source builds. -/
def joinPath (a b : String) : String := a ++ "/" ++ b

/-- A serialised meta document as stored in a `.json` file. -/
def docToVal (doc : List (String × PyVal)) : PyVal :=
  .VDict (doc.map (fun kv => (PyVal.VStr kv.fst, kv.snd)))

/-- The `DatabaseManager` state: its database `Meta` plus the file system.
A live `Table` shares `meta_database` with the manager, so table operations
take and return this state as well. -/
structure DbState where
  meta : Meta
  disk : Disk
  deriving Repr

/-- Embedding coercion: a meta field that holds a tuple of strings (such as
`columns`, `datatypes`, `keys`), extracted for direct use. -/
def asStrList (v : PyVal) : Except PyErr (List String) :=
  match v with
  | .VTuple xs =>
      xs.mapM (fun x =>
        match x with
        | .VStr s => Except.ok s
        | v => Except.error (.typeError (sq ++ pyStr v ++ sq ++ " is not a string")))
  | .VList xs =>
      xs.mapM (fun x =>
        match x with
        | .VStr s => Except.ok s
        | v => Except.error (.typeError (sq ++ pyStr v ++ sq ++ " is not a string")))
  | v => .error (.typeError (sq ++ pyStr v ++ sq ++ " object is not iterable"))

/-- Embedding coercion: a meta field that holds a string. -/
def asStr (v : PyVal) : Except PyErr String :=
  match v with
  | .VStr s => .ok s
  | v => .error (.typeError (sq ++ pyStr v ++ sq ++ " is not a string"))

/-- `list.index` as used for `keys_index`/`splice_key_index` (raises
`ValueError` when the key is not a column). -/
def listIndexOf (cols : List String) (k : String) : Except PyErr Nat :=
  match cols.indexOf? k with
  | some i => .ok i
  | none => .error (.valueError (sq ++ k ++ sq ++ " is not in list"))

/-- The projection function produced by `retriever(keys_index)`: project a
record (a tuple) onto the given positions, in order.  An out-of-range
position raises `IndexError` as Python indexing would. -/
def keysGetter (kidx : List Nat) (r : Record) : Except PyErr Record :=
  kidx.mapM (fun i =>
    match r.get? i with
    | some v => Except.ok v
    | none => Except.error (.indexError "tuple index out of range"))

/-- The `ValueError` message of `_new_records_checks` for a record of the
wrong arity. -/
def arityMsg (recIdx ncols : Nat) : String :=
  "Record index " ++ toString recIdx ++ " is not of length " ++ toString ncols

/-- The `TypeError` message of `_new_records_checks` for a non-conforming
element. -/
def typeMsg (recIdx elemIdx : Nat) (v : PyVal) (typerule : String) : String :=
  "Record index " ++ toString recIdx ++ ", element index " ++ toString elemIdx ++
  ", value " ++ pyStr v ++ ", is not of expected type " ++ sq ++ typerule ++ sq

/-- The per-element loop of `_new_records_checks`: zip the record with the
datatypes; skip `None` elements; otherwise require
`conforms_typerule(elem, typerule)` (whose own exceptions propagate). -/
def elemChecks (recIdx : Nat) : Nat → List PyVal → List String → Except PyErr Unit
  | _, [], _ => .ok ()
  | _, _, [] => .ok ()
  | j, v :: vs, trule :: ts =>
      if pyIsNone v then elemChecks recIdx (j + 1) vs ts
      else
        match conforms_typerule v trule with
        | .error e => .error e
        | .ok true => elemChecks recIdx (j + 1) vs ts
        | .ok false => .error (.typeError (typeMsg recIdx j v trule))

/-- `TableAbstract._new_records_checks`: for each record, first the arity
check (`ValueError` naming the record index), then the per-element type
check (`TypeError` naming record and element index).  Nothing is mutated;
the first failure raises. -/
def new_records_checks (ncols : Nat) (dts : List String) (records : List Record) :
    Except PyErr Unit :=
  go 0 records
where
  go : Nat → List Record → Except PyErr Unit
    | _, [] => .ok ()
    | i, r :: rs =>
        if r.length ≠ ncols then .error (.valueError (arityMsg i ncols))
        else
          match elemChecks i 0 r dts with
          | .error e => .error e
          | .ok () => go (i + 1) rs

/-- The enumerate-and-`itertools.groupby` pass of
`generate_index_monolithic`: group ADJACENT records with equal key tuples
(the source does not sort the record list first), keeping row positions. -/
def groupRunsAux (kidx : List Nat) : Nat → List Record → Except PyErr (List (Record × List Nat))
  | _, [] => .ok []
  | i, r :: rs =>
      match keysGetter kidx r with
      | .error e => .error e
      | .ok k =>
          match groupRunsAux kidx (i + 1) rs with
          | .error e => .error e
          | .ok rest =>
              match rest with
              | (k2, rows) :: tail =>
                  if pyListBEq k k2 then .ok ((k, i :: rows) :: tail)
                  else .ok ((k, [i]) :: rest)
              | [] => .ok [(k, [i])]

/-- `generate_index_monolithic(records, columns, keys, keys_getter)`:
rebuild the whole index as `dict[key_tuple, tuple(row_indices)]` by
grouping the enumerated record list; a later group with the same key tuple
overwrites the earlier entry (`mono_index[key] = row_indices`). -/
def generate_index_monolithic (records : List Record) (kidx : List Nat) :
    Except PyErr PyVal :=
  match groupRunsAux kidx 0 records with
  | .error e => .error e
  | .ok runs =>
      .ok (.VDict (runs.foldl
        (fun acc kr =>
          pyEntriesSet acc (.VTuple kr.1) (.VTuple (kr.2.map (fun n => PyVal.VInt (n : Int)))))
        []))

/-- The `TableMonolithic.index` setter: validates the new index against
`dict[tuple[int|str|float|bool], tuple[int]]` and raises `TypeError` when
it does not conform. -/
def monoIndexSetter (idx : PyVal) : Except PyErr PyVal :=
  match conforms_typerule idx "dict[tuple[int|str|float|bool], tuple[int]]" with
  | .error e => .error e
  | .ok false => .error (.typeError "Index does not conform to Monolithic index")
  | .ok true => .ok idx

/-- `TableMonolithic._update_index`: regenerate from the full record list,
then assign through the validating setter. -/
def monoUpdateIndex (records : List Record) (kidx : List Nat) : Except PyErr PyVal :=
  match generate_index_monolithic records kidx with
  | .error e => .error e
  | .ok d => monoIndexSetter d

/-- A live `TableMonolithic`: its `Meta`, the precomputed `keys_index`,
the in-memory record list and the in-memory index (a Python dict). -/
structure MonoTable where
  meta : Meta
  keysIdx : List Nat
  records : List Record
  index : PyVal
  deriving Repr

/-- A live `TableSpliced` (only its construction is embedded; the claims
exercise `TableSpliced` solely through `create_table`). -/
structure SplicedTable where
  meta : Meta
  keysIdx : List Nat
  spliceIdx : List Nat
  records : List Record
  index : PyVal
  deriving Repr

/-- The monolithic records file path `recs__<name>__monolithic.json` under
the table directory. -/
def monoRecordsPath (tdir name : String) : String :=
  joinPath tdir ("recs__" ++ name ++ "__monolithic.json")

/-- `TableMonolithic.__init__` (via `TableAbstract.__init__`): compute
`keys_index`, then `_load_records` (the monolithic JSON file if present,
else an empty list) and `_load_index` (the pickle file if present, else an
empty dict). -/
def tableMonolithicInit (tblmeta : Meta) (disk : Disk) : Except PyErr MonoTable := do
  let cols ← tblmeta.getitem "columns" >>= asStrList
  let keys ← tblmeta.getitem "keys" >>= asStrList
  let kidx ← keys.mapM (listIndexOf cols)
  let tdir ← tblmeta.getitem "table_directory" >>= asStr
  let name ← tblmeta.getitem "name" >>= asStr
  let records :=
    match assocGet disk.files (monoRecordsPath tdir name) with
    | some (.VList rows) =>
        rows.map (fun row =>
          match row with
          | .VTuple xs => xs
          | .VList xs => xs
          | v => [v])
    | _ => []
  let iloc ← tblmeta.getitem "index_file_location" >>= asStr
  let index := (assocGet disk.files iloc).getD (.VDict [])
  pure { meta := tblmeta, keysIdx := kidx, records := records, index := index }

/-- `TableSpliced.__init__`: the abstract initialisation plus the splice
key index (`_load_records` is called with `splice_values=None` and returns
an empty list). -/
def tableSplicedInit (tblmeta : Meta) (disk : Disk) : Except PyErr SplicedTable := do
  let cols ← tblmeta.getitem "columns" >>= asStrList
  let keys ← tblmeta.getitem "keys" >>= asStrList
  let kidx ← keys.mapM (listIndexOf cols)
  let iloc ← tblmeta.getitem "index_file_location" >>= asStr
  let index := (assocGet disk.files iloc).getD (.VDict [])
  let spliceKeys ← tblmeta.getitem "splice_keys" >>= asStrList
  let sidx ← spliceKeys.mapM (listIndexOf cols)
  pure { meta := tblmeta, keysIdx := kidx, spliceIdx := sidx, records := [], index := index }

/-- A table instance as returned by `create_table`/`get_table`. -/
inductive TableInst where
  | mono (t : MonoTable)
  | spliced (t : SplicedTable)
  deriving Repr

/-- The table `Meta` held by a table instance. -/
def TableInst.meta : TableInst → Meta
  | .mono t => t.meta
  | .spliced t => t.meta

/-- `TableMonolithic.add`, integrity loop (`enforce_integrity` true): for
each record, if its key tuple is already in the index, either raise
`IndexError` (`integrity_method='raise'`) or silently drop the record
(`'skip'`, and likewise for any other value of `integrity_method`, for
which the Python `if/elif` falls through); otherwise append the record and
fully rebuild the index.  An error carries the partially mutated record
list and index. -/
def monoIntegrityLoop (kidx : List Nat) (im : String) :
    List Record → PyVal → List Record →
    Except (PyErr × List Record × PyVal) (List Record × PyVal)
  | recs, idx, [] => .ok (recs, idx)
  | recs, idx, r :: rest =>
      match keysGetter kidx r with
      | .error e => .error (e, recs, idx)
      | .ok k =>
          let hit :=
            match idx with
            | .VDict es => pyEntriesContains es (.VTuple k)
            | _ => false
          if hit then
            if im = "raise" then
              .error (.indexError
                ("index " ++ sq ++ pyRepr (.VTuple k) ++ sq ++ " already exists"),
                recs, idx)
            else monoIntegrityLoop kidx im recs idx rest
          else
            match monoUpdateIndex (recs ++ [r]) kidx with
            | .error e => .error (e, recs ++ [r], idx)
            | .ok idx2 => monoIntegrityLoop kidx im (recs ++ [r]) idx2 rest

/-- The validation prefix of `TableMonolithic.add`: read `self.columns` and
`self.datatypes` from the table meta and run `_new_records_checks`.  No
state is touched. -/
def monoAddChecks (t : MonoTable) (records : List Record) : Except PyErr Unit :=
  match t.meta.getitem "columns" with
  | .error e => .error e
  | .ok colsV =>
  match asStrList colsV with
  | .error e => .error e
  | .ok cols =>
  match t.meta.getitem "datatypes" with
  | .error e => .error e
  | .ok dtsV =>
  match asStrList dtsV with
  | .error e => .error e
  | .ok dts => new_records_checks cols.length dts records

/-- The in-memory insertion phase of `TableMonolithic.add`: with
`enforce_integrity` true run the integrity loop, otherwise extend the
record list wholesale and rebuild the index once.  Errors carry the
partially mutated record list and index. -/
def monoAddInsert (t : MonoTable) (records : List Record) (integrity_method : String) :
    Except (PyErr × List Record × PyVal) (List Record × PyVal) :=
  match t.meta.getitem "enforce_integrity" with
  | .error e => .error (e, t.records, t.index)
  | .ok enfV =>
    match enfV with
    | .VBool true => monoIntegrityLoop t.keysIdx integrity_method t.records t.index records
    | _ =>
        match monoUpdateIndex (t.records ++ records) t.keysIdx with
        | .error e => .error (e, t.records ++ records, t.index)
        | .ok idx2 => .ok (t.records ++ records, idx2)

/-- The metadata/persistence tail of `TableMonolithic.add`, after the
in-memory state has been mutated: set `nrecords := len(self.records)` and
`last_modified` on the table meta and write it, add `nNew` (the FULL batch
length, skipped records included) to the database meta's
`total_table_records`, set its `last_modified` and write it, then persist
the records file (only when the record list is non-empty) and the index
file. -/
def monoAddFinish (t1 : MonoTable) (db : DbState) (nNew : Nat) (now : PyVal) :
    Except (PyErr × MonoTable × DbState) (MonoTable × DbState) :=
  match Meta.edit t1.meta "nrecords" (.VInt t1.records.length) with
  | .error e => .error (e, t1, db)
  | .ok m1 =>
  match Meta.edit m1 "last_modified" now with
  | .error e => .error (e, { t1 with meta := m1 }, db)
  | .ok m2 =>
  let t2 : MonoTable := { t1 with meta := m2 }
  match m2.write with
  | .error e => .error (e, t2, db)
  | .ok doc =>
  match m2.getitem "meta_file_location" with
  | .error e => .error (e, t2, db)
  | .ok locV =>
  match asStr locV with
  | .error e => .error (e, t2, db)
  | .ok loc =>
  let db1 : DbState := { db with disk := diskWrite db.disk loc (docToVal doc) }
  match db1.meta.getitem "total_table_records" with
  | .error e => .error (e, t2, db1)
  | .ok totV =>
  match totV with
  | .VInt tot =>
    match Meta.edit db1.meta "total_table_records" (.VInt (tot + (nNew : Int))) with
    | .error e => .error (e, t2, db1)
    | .ok dm1 =>
    match Meta.edit dm1 "last_modified" now with
    | .error e => .error (e, t2, { db1 with meta := dm1 })
    | .ok dm2 =>
    let db2 : DbState := { db1 with meta := dm2 }
    match dm2.write with
    | .error e => .error (e, t2, db2)
    | .ok ddoc =>
    match dm2.getitem "database_meta_location" with
    | .error e => .error (e, t2, db2)
    | .ok dlocV =>
    match asStr dlocV with
    | .error e => .error (e, t2, db2)
    | .ok dloc =>
    let db3 : DbState := { db2 with disk := diskWrite db2.disk dloc (docToVal ddoc) }
    match m2.getitem "table_directory" with
    | .error e => .error (e, t2, db3)
    | .ok tdirV =>
    match asStr tdirV with
    | .error e => .error (e, t2, db3)
    | .ok tdir =>
    match m2.getitem "name" with
    | .error e => .error (e, t2, db3)
    | .ok nameV =>
    match asStr nameV with
    | .error e => .error (e, t2, db3)
    | .ok name =>
    let db4 : DbState :=
      if t1.records.isEmpty then db3
      else { db3 with disk := diskWrite db3.disk (monoRecordsPath tdir name)
                        (.VList (t1.records.map PyVal.VTuple)) }
    match m2.getitem "index_file_location" with
    | .error e => .error (e, t2, db4)
    | .ok ilocV =>
    match asStr ilocV with
    | .error e => .error (e, t2, db4)
    | .ok iloc =>
    .ok (t2, { db4 with disk := diskWrite db4.disk iloc t2.index })
  | _ => .error (.typeError "unsupported operand type(s) for +: not an int", t2, db1)

/-- `TableMonolithic.add(records, integrity_method)`.  Order of effects,
exactly as in the source: validate (`_new_records_checks`) BEFORE touching
any state, insert in-memory and rebuild the index, then the
metadata/persistence tail (`monoAddFinish`) with `nNew = len(records)`,
the full batch length.  An exception carries the state exactly as mutated
so far. -/
def monoAdd (t : MonoTable) (db : DbState) (records : List Record)
    (integrity_method : String) (now : PyVal) :
    Except (PyErr × MonoTable × DbState) (MonoTable × DbState) :=
  match monoAddChecks t records with
  | .error e => .error (e, t, db)
  | .ok () =>
  match monoAddInsert t records integrity_method with
  | .error (e, recs, idx) => .error (e, { t with records := recs, index := idx }, db)
  | .ok (recs, idx) =>
      monoAddFinish { t with records := recs, index := idx } db records.length now

/-- `DatabaseManager.create_table`: duplicate-name and `storage_type`
checks, create the table directory, populate a fresh `TableMeta` (with the
direct-assignment bypass for `foreign` and `splice_keys`), write it,
construct the table instance, write the table meta again through the
instance, then update the database `Meta` in memory: merge the name into
`tables`, set `last_modified`, merge the meta-file location into
`table_meta_locations`.  The database meta is NOT written to disk here. -/
def create_table (db : DbState) (name : String)
    (columns datatypes keys : List String) (foreign : PyVal)
    (storage_type : String) (splice_keys : PyVal) (now : PyVal) :
    Except (PyErr × DbState) (TableInst × DbState) :=
  match db.meta.getitem "tables" with
  | .error e => .error (e, db)
  | .ok tablesV =>
  match pyContains tablesV (.VStr name) with
  | .error e => .error (e, db)
  | .ok true =>
      .error (.valueError ("Table " ++ sq ++ name ++ sq ++ " already exists"), db)
  | .ok false =>
  if storage_type ≠ "monolithic" ∧ storage_type ≠ "rolling" ∧ storage_type ≠ "spliced" then
    .error (.valueError
      ("Only [" ++ sq ++ "monolithic" ++ sq ++ ", " ++ sq ++ "rolling" ++ sq ++ ", " ++
       sq ++ "spliced" ++ sq ++ "] are valid " ++ sq ++ "storage_type" ++ sq), db)
  else
  match db.meta.getitem "database_data_root_directory" with
  | .error e => .error (e, db)
  | .ok storesV =>
  match asStr storesV with
  | .error e => .error (e, db)
  | .ok stores =>
  let tbldir := joinPath stores ("table__" ++ name)
  match diskMkdir db.disk tbldir with
  | .error e => .error (e, db)
  | .ok disk1 =>
  let db1 : DbState := { db with disk := disk1 }
  let metaResult : Except PyErr Meta := do
    let m0 := Meta.init metaTableTemplate
    let m1 ← m0.edit "name" (.VStr name)
    let m2 ← m1.edit "created" now
    let m3 ← m2.edit "last_modified" now
    let m4 ← m3.edit "columns" (.VTuple (columns.map PyVal.VStr))
    let m5 ← m4.edit "datatypes" (.VTuple (datatypes.map PyVal.VStr))
    let m6 ← m5.edit "keys" (.VTuple (keys.map PyVal.VStr))
    let m7 ← m6.edit "enforce_integrity" (.VBool true)
    let m8 ← m7.edit "nrecords" (.VInt 0)
    let dbdirV ← db.meta.getitem "database_directory"
    let m9 ← m8.edit "database_directory" dbdirV
    let m10 ← m9.edit "table_directory" (.VStr tbldir)
    let m11 ← m10.edit "index_file_location" (.VStr (joinPath tbldir "table_index.pkl"))
    let m12 ← m11.edit "meta_file_location" (.VStr (joinPath tbldir "metadata.json"))
    let m13 ← m12.edit "storage_type" (.VStr storage_type)
    -- bypass: `tblmeta._metadata['foreign'] = foreign` etc., marking edited
    let m14 : Meta :=
      { m13 with metadata := assocSet m13.metadata "foreign" foreign
                 keys_edited := assocSet m13.keys_edited "foreign" true }
    let m15 : Meta :=
      { m14 with metadata := assocSet m14.metadata "splice_keys" splice_keys
                 keys_edited := assocSet m14.keys_edited "splice_keys" true }
    pure m15
  match metaResult with
  | .error e => .error (e, db1)
  | .ok tblmeta =>
  match tblmeta.write with
  | .error e => .error (e, db1)
  | .ok doc =>
  match tblmeta.getitem "meta_file_location" with
  | .error e => .error (e, db1)
  | .ok mlocV =>
  match asStr mlocV with
  | .error e => .error (e, db1)
  | .ok mloc =>
  let disk2 := diskWrite disk1 mloc (docToVal doc)
  let db2 : DbState := { db with disk := disk2 }
  let instResult : Except PyErr TableInst :=
    if storage_type = "spliced" then (tableSplicedInit tblmeta disk2).map .spliced
    else (tableMonolithicInit tblmeta disk2).map .mono
  match instResult with
  | .error e => .error (e, db2)
  | .ok inst =>
  match inst.meta.write with
  | .error e => .error (e, db2)
  | .ok doc2 =>
  let disk3 := diskWrite disk2 mloc (docToVal doc2)
  let db3 : DbState := { db with disk := disk3 }
  match db.meta.edit "tables" (.VTuple [.VStr name]) with
  | .error e => .error (e, db3)
  | .ok dm1 =>
  match dm1.edit "last_modified" now with
  | .error e => .error (e, { db3 with meta := dm1 })
  | .ok dm2 =>
  match dm2.edit "table_meta_locations" (.VDict [(.VStr name, mlocV)]) with
  | .error e => .error (e, { db3 with meta := dm2 })
  | .ok dm3 =>
  .ok (inst, { meta := dm3, disk := disk3 })

/-- `init_database(rootdir, dbdir_name)`: precondition checks, create the
database and stores directories, populate the database `Meta`, and write
`database_meta.json`.  Returns the resulting manager state. -/
def init_database (disk0 : Disk) (rootdir dbdir_name : String) (now : PyVal) :
    Except PyErr DbState := do
  let dbdir := joinPath rootdir dbdir_name
  let stores := joinPath dbdir "stores"
  if rootdir ∉ disk0.dirs then
    throw (.fileNotFoundError ("Directory " ++ sq ++ rootdir ++ sq ++ " does not exist"))
  else if dbdir ∈ disk0.dirs then
    throw (.fileExistsError ("Database directory " ++ sq ++ dbdir ++ sq ++ " already exists"))
  else
    let disk1 : Disk := { disk0 with dirs := disk0.dirs ++ [dbdir, stores] }
    let m0 := Meta.init metaDatabaseTemplate
    let m1 ← m0.edit "name" (.VStr dbdir_name)
    let m2 ← m1.edit "tables" (.VTuple [])
    let m3 ← m2.edit "collections" (.VTuple [])
    let m4 ← m3.edit "created" now
    let m5 ← m4.edit "last_modified" now
    let m6 ← m5.edit "total_table_records" (.VInt 0)
    let m7 ← m6.edit "total_documents" (.VInt 0)
    let m8 ← m7.edit "database_directory" (.VStr dbdir)
    let m9 ← m8.edit "database_root_directory" (.VStr rootdir)
    let m10 ← m9.edit "database_data_root_directory" (.VStr stores)
    let m11 ← m10.edit "table_meta_locations" (.VDict [])
    let m12 ← m11.edit "collection_meta_locations" (.VDict [])
    let dbmetaLoc := joinPath dbdir "database_meta.json"
    let m13 ← m12.edit "database_meta_location" (.VStr dbmetaLoc)
    let doc ← m13.write
    pure { meta := m13, disk := diskWrite disk1 dbmetaLoc (docToVal doc) }

/-! ### Concrete sample states

A freshly initialised database at `/tmp/database` and a monolithic table
`t1(id: int, name: str)` keyed on `id`, exactly as produced by
`init_database` followed by `DatabaseManager.create_table` (the provenance
lemmas below check this by evaluation). -/

def sampleNow : PyVal := .VDateTime 2020 1 1 0 0 0 0

def sampleDisk : Disk := { dirs := ["/tmp"], files := [] }

def sampleDbMetaDoc : PyVal :=
  .VDict [(.VStr "name", .VStr "database"),
          (.VStr "tables", .VTuple []),
          (.VStr "collections", .VTuple []),
          (.VStr "created", .VStr "2020-01-01T00:00:00Z"),
          (.VStr "last_modified", .VStr "2020-01-01T00:00:00Z"),
          (.VStr "total_table_records", .VInt 0),
          (.VStr "total_documents", .VInt 0),
          (.VStr "database_directory", .VStr "/tmp/database"),
          (.VStr "database_root_directory", .VStr "/tmp"),
          (.VStr "database_meta_location", .VStr "/tmp/database/database_meta.json"),
          (.VStr "database_data_root_directory", .VStr "/tmp/database/stores"),
          (.VStr "table_meta_locations", .VDict []),
          (.VStr "collection_meta_locations", .VDict [])]

def sampleDbMeta : Meta :=
  { template := metaDatabaseTemplate
    metadata := [("name", .VStr "database"),
                 ("tables", .VTuple []),
                 ("collections", .VTuple []),
                 ("created", sampleNow),
                 ("last_modified", sampleNow),
                 ("total_table_records", .VInt 0),
                 ("total_documents", .VInt 0),
                 ("database_directory", .VStr "/tmp/database"),
                 ("database_root_directory", .VStr "/tmp"),
                 ("database_meta_location", .VStr "/tmp/database/database_meta.json"),
                 ("database_data_root_directory", .VStr "/tmp/database/stores"),
                 ("table_meta_locations", .VDict []),
                 ("collection_meta_locations", .VDict [])]
    keys_edited := metaDatabaseTemplate.entries.map (fun e => (e.key, true)) }

/-- The manager state right after `init_database('/tmp', 'database')`. -/
def sampleDb0 : DbState :=
  { meta := sampleDbMeta
    disk := { dirs := ["/tmp", "/tmp/database", "/tmp/database/stores"]
              files := [("/tmp/database/database_meta.json", sampleDbMetaDoc)] } }

def sampleTableMeta : Meta :=
  { template := metaTableTemplate
    metadata := [("name", .VStr "t1"),
                 ("created", sampleNow),
                 ("last_modified", sampleNow),
                 ("columns", .VTuple [.VStr "id", .VStr "name"]),
                 ("datatypes", .VTuple [.VStr "int", .VStr "str"]),
                 ("keys", .VTuple [.VStr "id"]),
                 ("foreign", .VNone),
                 ("enforce_integrity", .VBool true),
                 ("nrecords", .VInt 0),
                 ("database_directory", .VStr "/tmp/database"),
                 ("table_directory", .VStr "/tmp/database/stores/table__t1"),
                 ("index_file_location", .VStr "/tmp/database/stores/table__t1/table_index.pkl"),
                 ("meta_file_location", .VStr "/tmp/database/stores/table__t1/metadata.json"),
                 ("storage_type", .VStr "monolithic"),
                 ("splice_keys", .VNone)]
    keys_edited := metaTableTemplate.entries.map (fun e => (e.key, true)) }

/-- The live table returned by
`create_table('t1', ('id','name'), ('int','str'), keys=('id',))`. -/
def sampleTable : MonoTable :=
  { meta := sampleTableMeta, keysIdx := [0], records := [], index := .VDict [] }

def sampleTableMetaDoc : PyVal :=
  .VDict [(.VStr "name", .VStr "t1"),
          (.VStr "created", .VStr "2020-01-01T00:00:00Z"),
          (.VStr "last_modified", .VStr "2020-01-01T00:00:00Z"),
          (.VStr "columns", .VTuple [.VStr "id", .VStr "name"]),
          (.VStr "datatypes", .VTuple [.VStr "int", .VStr "str"]),
          (.VStr "keys", .VTuple [.VStr "id"]),
          (.VStr "foreign", .VNone),
          (.VStr "enforce_integrity", .VBool true),
          (.VStr "nrecords", .VInt 0),
          (.VStr "database_directory", .VStr "/tmp/database"),
          (.VStr "table_directory", .VStr "/tmp/database/stores/table__t1"),
          (.VStr "index_file_location", .VStr "/tmp/database/stores/table__t1/table_index.pkl"),
          (.VStr "meta_file_location", .VStr "/tmp/database/stores/table__t1/metadata.json"),
          (.VStr "storage_type", .VStr "monolithic"),
          (.VStr "splice_keys", .VNone)]

/-- The manager state right after the `create_table` call above: the
in-memory database meta lists `t1`, but the on-disk
`database_meta.json` is untouched (it still holds `sampleDbMetaDoc`). -/
def sampleDb1 : DbState :=
  { meta :=
      { template := metaDatabaseTemplate
        metadata := [("name", .VStr "database"),
                     ("tables", .VTuple [.VStr "t1"]),
                     ("collections", .VTuple []),
                     ("created", sampleNow),
                     ("last_modified", sampleNow),
                     ("total_table_records", .VInt 0),
                     ("total_documents", .VInt 0),
                     ("database_directory", .VStr "/tmp/database"),
                     ("database_root_directory", .VStr "/tmp"),
                     ("database_meta_location", .VStr "/tmp/database/database_meta.json"),
                     ("database_data_root_directory", .VStr "/tmp/database/stores"),
                     ("table_meta_locations",
                      .VDict [(.VStr "t1", .VStr "/tmp/database/stores/table__t1/metadata.json")]),
                     ("collection_meta_locations", .VDict [])]
        keys_edited := metaDatabaseTemplate.entries.map (fun e => (e.key, true)) }
    disk := { dirs := ["/tmp", "/tmp/database", "/tmp/database/stores",
                       "/tmp/database/stores/table__t1"]
              files := [("/tmp/database/database_meta.json", sampleDbMetaDoc),
                        ("/tmp/database/stores/table__t1/metadata.json", sampleTableMetaDoc)] } }

/-- A copy of the sample table with `enforce_integrity = false`, so that a
batch may contain repeated key-tuples at non-adjacent positions. -/
def c9Table : MonoTable :=
  { meta := { sampleTableMeta with
              metadata := assocSet sampleTableMeta.metadata "enforce_integrity" (.VBool false) },
    keysIdx := [0], records := [], index := .VDict [] }

/-- A copy of the sample table whose `name` column is typed with the
dict-rooted rule `dict[str,int]`, so that checking a non-dict element
against it raises `AttributeError`. -/
def c2Table : MonoTable :=
  { meta := { sampleTableMeta with
              metadata := assocSet sampleTableMeta.metadata "datatypes"
                (.VTuple [.VStr "int", .VStr "dict[str,int]"]) },
    keysIdx := [0], records := [], index := .VDict [] }

/-- A copy of the sample database meta whose tuple-rooted field `tables`
currently holds `("a",)`. -/
def c8SampleMeta : Meta :=
  { sampleDbMeta with
    metadata := assocSet sampleDbMeta.metadata "tables" (.VTuple [.VStr "a"]) }

/-! ### Helper lemmas -/

/-- `init_database('/tmp', 'database')` produces exactly the sample
manager state (checked by evaluation). -/
theorem sampleDb0_provenance :
    init_database sampleDisk "/tmp" "database" sampleNow = .ok sampleDb0 := rfl

/-- The sample `create_table` call produces exactly the sample table and
the sample post-creation manager state (checked by evaluation). -/
theorem sampleDb1_provenance :
    create_table sampleDb0 "t1" ["id", "name"] ["int", "str"] ["id"]
      .VNone "monolithic" .VNone sampleNow = .ok (.mono sampleTable, sampleDb1) := rfl


theorem assocGet_assocSet_self {α : Type} (l : List (String × α)) (k : String) (v w : α)
    (h : assocGet l k = some w) : assocGet (assocSet l k v) k = some v := by
  induction l with
  | nil => simp [assocGet] at h
  | cons e rest ih =>
      obtain ⟨k0, v0⟩ := e
      by_cases hk : k0 = k
      · simp [assocSet, assocGet, hk]
      · simp only [assocGet, if_neg hk] at h
        simp [assocSet, assocGet, hk, ih h]

theorem assocGet_assocSet_ne {α : Type} (l : List (String × α)) (k k2 : String) (v : α)
    (h : k ≠ k2) : assocGet (assocSet l k2 v) k = assocGet l k := by
  induction l with
  | nil => simp [assocSet]
  | cons e rest ih =>
      obtain ⟨k0, v0⟩ := e
      by_cases hk : k0 = k2
      · subst hk
        have hk0 : ¬ k0 = k := fun hh => h (hh ▸ rfl)
        simp [assocSet, assocGet, hk0]
      · by_cases hk0 : k0 = k
        · simp [assocSet, assocGet, hk, hk0, h]
        · simp [assocSet, assocGet, hk, hk0, ih]

theorem assocGet_assocUpsert_ne (l : List (String × PyVal)) (p q : String) (v : PyVal)
    (h : p ≠ q) : assocGet (assocUpsert l q v) p = assocGet l p := by
  induction l with
  | nil =>
      have : ¬ q = p := fun hh => h (hh ▸ rfl)
      simp [assocUpsert, assocGet, this]
  | cons e rest ih =>
      obtain ⟨k0, v0⟩ := e
      by_cases hk : k0 = q
      · subst hk
        have hk0 : ¬ k0 = p := fun hh => h (hh ▸ rfl)
        simp [assocUpsert, assocGet, hk0]
      · by_cases hk0 : k0 = p
        · simp [assocUpsert, assocGet, hk, hk0, h]
        · simp [assocUpsert, assocGet, hk, hk0, ih]

theorem getitem_ok_assocGet (m : Meta) (k : String) (v : PyVal)
    (h : m.getitem k = .ok v) : assocGet m.metadata k = some v := by
  unfold Meta.getitem Meta.metadataAcc at h
  by_cases hv : m.is_valid
  · simp only [hv, if_true] at h
    cases hg : assocGet m.metadata k with
    | none => rw [hg] at h; exact Except.noConfusion h
    | some w => rw [hg] at h; cases h; rfl
  · simp [hv] at h

theorem getitem_ok_is_valid (m : Meta) (k : String) (v : PyVal)
    (h : m.getitem k = .ok v) : m.is_valid = true := by
  unfold Meta.getitem Meta.metadataAcc at h
  by_cases hv : m.is_valid
  · exact hv
  · simp [hv] at h

/-- A successful `Meta.edit` always produces the same template and updates
exactly the edited key (to some value) and its edited flag. -/
theorem edit_shape (m : Meta) (k : String) (v : PyVal) (m' : Meta)
    (h : m.edit k v = .ok m') :
    m'.template = m.template ∧
    (∃ nv, m'.metadata = assocSet m.metadata k nv) ∧
    m'.keys_edited = assocSet m.keys_edited k true := by
  unfold Meta.edit at h
  dsimp only at h
  repeat' split at h
  all_goals
    first
    | exact Except.noConfusion h
    | (cases h; exact ⟨rfl, ⟨_, rfl⟩, rfl⟩)

/-- A successful `Meta.edit` on a field whose typerule has no bracket
stores the new value verbatim (the replace path of `edit`). -/
theorem edit_nonbracket_value (m : Meta) (k : String) (v : PyVal) (m' : Meta) (tr : String)
    (htr : m.template.get_typerule k = .ok tr) (hnb : '[' ∉ tr.data)
    (h : m.edit k v = .ok m') : assocGet m'.metadata k = some v := by
  unfold Meta.edit at h
  rw [htr] at h
  dsimp only at h
  split at h
  next => exact Except.noConfusion h
  next hguard =>
    obtain ⟨w, hg⟩ : ∃ w, assocGet m.metadata k = some w := by
      cases hgg : assocGet m.metadata k with
      | none => rw [hgg] at hguard; simp at hguard
      | some w => exact ⟨w, rfl⟩
    repeat' split at h
    all_goals first
      | exact Except.noConfusion h
      | (cases h
         simp_all only [Except.ok.injEq]
         subst_vars
         simpa using assocGet_assocSet_self m.metadata k _ _ hg)

/-- A successful `Meta.edit` on a tuple-rooted field whose current value is
a tuple concatenates (the merge path of `edit`). -/
theorem edit_tuple_merge (m : Meta) (k : String) (xs ys : List PyVal) (m' : Meta) (tr : String)
    (htr : m.template.get_typerule k = .ok tr)
    (hroot : tr.data.takeWhile (fun c => c ≠ '[') = "tuple".data)
    (hbr : '[' ∈ tr.data)
    (hcur : assocGet m.metadata k = some (.VTuple xs))
    (h : m.edit k (.VTuple ys) = .ok m') :
    assocGet m'.metadata k = some (.VTuple (xs ++ ys)) := by
  unfold Meta.edit at h
  rw [htr] at h
  dsimp only at h
  split at h
  next => exact Except.noConfusion h
  next =>
    rw [hroot, hcur] at h
    norm_num [pyTupleConcat] at h
    repeat' split at h
    all_goals first
      | exact Except.noConfusion h
      | (cases h
         simp_all only [Except.ok.injEq]
         simpa using assocGet_assocSet_self m.metadata k _ _ hcur)

/-- A successful `Meta.edit` on a tuple-rooted field whose current value is
NOT a tuple (e.g. the default `None`) stores the new value verbatim. -/
theorem edit_tuple_none_replace (m : Meta) (k : String) (ys : List PyVal) (m' : Meta) (tr : String)
    (htr : m.template.get_typerule k = .ok tr)
    (hroot : tr.data.takeWhile (fun c => c ≠ '[') = "tuple".data)
    (hbr : '[' ∈ tr.data)
    (hcur : assocGet m.metadata k = some .VNone)
    (h : m.edit k (.VTuple ys) = .ok m') :
    assocGet m'.metadata k = some (.VTuple ys) := by
  unfold Meta.edit at h
  rw [htr] at h
  dsimp only at h
  split at h
  next => exact Except.noConfusion h
  next =>
    rw [hroot, hcur] at h
    norm_num at h
    repeat' split at h
    all_goals first
      | exact Except.noConfusion h
      | (cases h
         simp_all
         exact assocGet_assocSet_self m.metadata k _ _ hcur)

/-- A successful `Meta.edit` on a dict-rooted field whose current value is
a dict merges with `dict.update` semantics (new keys overwrite old). -/
theorem edit_dict_merge (m : Meta) (k : String) (es more : List (PyVal × PyVal)) (m' : Meta)
    (tr : String)
    (htr : m.template.get_typerule k = .ok tr)
    (hroot : tr.data.takeWhile (fun c => c ≠ '[') = "dict".data)
    (hbr : '[' ∈ tr.data)
    (hcur : assocGet m.metadata k = some (.VDict es))
    (h : m.edit k (.VDict more) = .ok m') :
    assocGet m'.metadata k =
      some (.VDict (more.foldl (fun acc e => pyEntriesSet acc e.1 e.2) es)) := by
  unfold Meta.edit at h
  rw [htr] at h
  dsimp only at h
  split at h
  next => exact Except.noConfusion h
  next =>
    rw [hroot, hcur] at h
    norm_num at h
    repeat' split at h
    all_goals first
      | exact Except.noConfusion h
      | (cases h
         simp_all
         exact assocGet_assocSet_self m.metadata k _ _ hcur)

/-- A successful `Meta.replace` stores the new value verbatim. -/
theorem replace_value (m : Meta) (k : String) (v : PyVal) (m' : Meta)
    (h : m.replace k v = .ok m') : assocGet m'.metadata k = some v := by
  unfold Meta.replace at h
  split at h
  next => exact Except.noConfusion h
  next hguard =>
    obtain ⟨w, hg⟩ : ∃ w, assocGet m.metadata k = some w := by
      cases hgg : assocGet m.metadata k with
      | none => rw [hgg] at hguard; simp at hguard
      | some w => exact ⟨w, rfl⟩
    repeat' split at h
    all_goals first
      | exact Except.noConfusion h
      | (cases h
         simpa using assocGet_assocSet_self m.metadata k _ _ hg)

/-- `os.mkdir` touches only the directory listing, never file contents. -/
theorem diskMkdir_files (d d' : Disk) (p : String) (h : diskMkdir d p = .ok d') :
    d'.files = d.files := by
  unfold diskMkdir at h
  split at h
  · exact Except.noConfusion h
  · cases h; rfl

/-- `_new_records_checks` element loop: succeeds when every non-`None`
element aligned with a datatype conforms (`None` elements are exempt). -/
theorem elemChecks_ok (i0 : Nat) : ∀ (j0 : Nat) (vs : List PyVal) (ts : List String),
    (∀ j v tvr, vs.get? j = some v → ts.get? j = some tvr → pyIsNone v = false →
      conforms_typerule v tvr = .ok true) →
    elemChecks i0 j0 vs ts = .ok ()
  | _, [], ts, _ => by cases ts <;> rfl
  | _, _ :: _, [], _ => rfl
  | j0, v :: vs, t :: ts, hgood => by
      unfold elemChecks
      by_cases hn : pyIsNone v = true
      · rw [if_pos hn]
        exact elemChecks_ok i0 (j0 + 1) vs ts
          (fun j w tvr hw ht hnn => hgood (j + 1) w tvr (by simpa using hw) (by simpa using ht) hnn)
      · rw [if_neg hn]
        rw [hgood 0 v t rfl rfl (by simpa using hn)]
        exact elemChecks_ok i0 (j0 + 1) vs ts
          (fun j w tvr hw ht hnn => hgood (j + 1) w tvr (by simpa using hw) (by simpa using ht) hnn)

/-- `_new_records_checks` element loop, error inversion: under rules whose
check does not itself raise, an error is always a `TypeError` naming the
record index and the absolute element index of a non-`None`,
non-conforming element. -/
theorem elemChecks_err_inv (i0 : Nat) : ∀ (j0 : Nat) (vs : List PyVal) (ts : List String)
    (e : PyErr),
    (∀ j v tvr, vs.get? j = some v → ts.get? j = some tvr →
      conforms_typerule v tvr = .ok true ∨ conforms_typerule v tvr = .ok false) →
    elemChecks i0 j0 vs ts = .error e →
    ∃ j v tvr, e = .typeError (typeMsg i0 (j0 + j) v tvr) ∧
      vs.get? j = some v ∧ ts.get? j = some tvr ∧ pyIsNone v = false ∧
      conforms_typerule v tvr = .ok false
  | _, [], ts, _, _, h => by cases ts <;> exact Except.noConfusion h
  | _, _ :: _, [], _, _, h => by exact Except.noConfusion h
  | j0, v :: vs, t :: ts, e, hnoerr, h => by
      unfold elemChecks at h
      by_cases hn : pyIsNone v = true
      · rw [if_pos hn] at h
        obtain ⟨j, w, tvr, he, hw, ht, hnn, hc⟩ :=
          elemChecks_err_inv i0 (j0 + 1) vs ts e
            (fun j w tvr hw ht => hnoerr (j + 1) w tvr (by simpa using hw) (by simpa using ht)) h
        exact ⟨j + 1, w, tvr, by rw [he]; ring_nf, by simpa using hw, by simpa using ht, hnn, hc⟩
      · rw [if_neg hn] at h
        rcases hnoerr 0 v t rfl rfl with hc | hc
        · rw [hc] at h
          obtain ⟨j, w, tvr, he, hw, ht, hnn, hcf⟩ :=
            elemChecks_err_inv i0 (j0 + 1) vs ts e
              (fun j w tvr hw ht => hnoerr (j + 1) w tvr (by simpa using hw) (by simpa using ht)) h
          exact ⟨j + 1, w, tvr, by rw [he]; ring_nf, by simpa using hw, by simpa using ht, hnn, hcf⟩
        · rw [hc] at h
          cases h
          exact ⟨0, v, t, by rw [Nat.add_zero], rfl, rfl, by simpa using hn, hc⟩

/-- `_new_records_checks` element loop, completeness: a non-`None`,
non-conforming element aligned with a datatype makes the loop fail. -/
theorem elemChecks_not_ok (i0 : Nat) : ∀ (j0 : Nat) (vs : List PyVal) (ts : List String),
    (∀ j v tvr, vs.get? j = some v → ts.get? j = some tvr →
      conforms_typerule v tvr = .ok true ∨ conforms_typerule v tvr = .ok false) →
    (∃ j v tvr, vs.get? j = some v ∧ ts.get? j = some tvr ∧ pyIsNone v = false ∧
      conforms_typerule v tvr = .ok false) →
    elemChecks i0 j0 vs ts ≠ .ok ()
  | _, [], _, _, hbad => by
      obtain ⟨j, v, tvr, hv, _⟩ := hbad
      simp at hv
  | _, _ :: _, [], _, hbad => by
      obtain ⟨j, v, tvr, _, ht, _⟩ := hbad
      simp at ht
  | j0, v :: vs, t :: ts, hnoerr, hbad => by
      unfold elemChecks
      by_cases hn : pyIsNone v = true
      · rw [if_pos hn]
        refine elemChecks_not_ok i0 (j0 + 1) vs ts
          (fun j w tvr hw ht => hnoerr (j + 1) w tvr (by simpa using hw) (by simpa using ht)) ?_
        obtain ⟨j, w, tvr, hw, ht, hnn, hc⟩ := hbad
        cases j with
        | zero =>
            cases hw
            rw [hn] at hnn
            exact Bool.noConfusion hnn
        | succ j => exact ⟨j, w, tvr, by simpa using hw, by simpa using ht, hnn, hc⟩
      · rw [if_neg hn]
        rcases hnoerr 0 v t rfl rfl with hc | hc
        · rw [hc]
          refine elemChecks_not_ok i0 (j0 + 1) vs ts
            (fun j w tvr hw ht => hnoerr (j + 1) w tvr (by simpa using hw) (by simpa using ht)) ?_
          obtain ⟨j, w, tvr, hw, ht, hnn, hcf⟩ := hbad
          cases j with
          | zero =>
              cases hw
              cases ht
              rw [hc] at hcf
              exact absurd (Except.ok.inj hcf) (by simp)
          | succ j => exact ⟨j, w, tvr, by simpa using hw, by simpa using ht, hnn, hcf⟩
        · rw [hc]
          exact fun hh => Except.noConfusion hh

/-- `_new_records_checks`: succeeds when every record has the right arity
and every non-`None` element conforms to its column's rule. -/
theorem checks_go_ok (ncols : Nat) (dts : List String) : ∀ (i0 : Nat) (rs : List Record),
    (∀ i r, rs.get? i = some r → r.length = ncols) →
    (∀ r ∈ rs, ∀ j v tvr, r.get? j = some v → dts.get? j = some tvr → pyIsNone v = false →
      conforms_typerule v tvr = .ok true) →
    new_records_checks.go ncols dts i0 rs = .ok ()
  | _, [], _, _ => rfl
  | i0, r :: rs, harity, hgood => by
      unfold new_records_checks.go
      rw [if_neg (fun hh => hh (harity 0 r rfl))]
      rw [elemChecks_ok i0 0 r dts (hgood r (List.mem_cons_self r rs))]
      exact checks_go_ok ncols dts (i0 + 1) rs
        (fun i rr hi => harity (i + 1) rr (by simpa using hi))
        (fun rr hm => hgood rr (List.mem_cons_of_mem r hm))

/-- `_new_records_checks`, error inversion: under rules whose check does
not itself raise, a failure is either a `ValueError` naming the index of a
record with the wrong arity, or a `TypeError` naming record and element
indices of a non-`None`, non-conforming element. -/
theorem checks_go_err_inv (ncols : Nat) (dts : List String) : ∀ (i0 : Nat) (rs : List Record)
    (e : PyErr),
    (∀ r ∈ rs, ∀ j v tvr, r.get? j = some v → dts.get? j = some tvr →
      conforms_typerule v tvr = .ok true ∨ conforms_typerule v tvr = .ok false) →
    new_records_checks.go ncols dts i0 rs = .error e →
    (∃ i r, e = .valueError (arityMsg (i0 + i) ncols) ∧ rs.get? i = some r ∧
       r.length ≠ ncols) ∨
    (∃ i r j v tvr, e = .typeError (typeMsg (i0 + i) j v tvr) ∧ rs.get? i = some r ∧
       r.get? j = some v ∧ dts.get? j = some tvr ∧ pyIsNone v = false ∧
       conforms_typerule v tvr = .ok false)
  | _, [], _, _, h => by exact Except.noConfusion h
  | i0, r :: rs, e, hnoerr, h => by
      unfold new_records_checks.go at h
      by_cases ha : r.length = ncols
      · rw [if_neg (fun hh => hh ha)] at h
        cases he : elemChecks i0 0 r dts with
        | error e2 =>
            rw [he] at h
            cases h
            obtain ⟨j, w, tvr, hmsg, hw, ht, hnn, hc⟩ :=
              elemChecks_err_inv i0 0 r dts e (hnoerr r (List.mem_cons_self r rs)) he
            exact Or.inr ⟨0, r, j, w, tvr, by simpa using hmsg, rfl, hw, ht, hnn, hc⟩
        | ok u =>
            cases u
            rw [he] at h
            rcases checks_go_err_inv ncols dts (i0 + 1) rs e
              (fun rr hm => hnoerr rr (List.mem_cons_of_mem r hm)) h with
              ⟨i, rr, hmsg, hi, hlen⟩ | ⟨i, rr, j, w, tvr, hmsg, hi, hw, ht, hnn, hc⟩
            · exact Or.inl ⟨i + 1, rr, by rw [hmsg]; ring_nf, by simpa using hi, hlen⟩
            · exact Or.inr ⟨i + 1, rr, j, w, tvr, by rw [hmsg]; ring_nf, by simpa using hi,
                hw, ht, hnn, hc⟩
      · rw [if_pos ha] at h
        cases h
        exact Or.inl ⟨0, r, by rw [Nat.add_zero], rfl, ha⟩

/-- `_new_records_checks`, completeness: a record of the wrong arity or a
non-`None`, non-conforming element makes the checks fail. -/
theorem checks_go_not_ok (ncols : Nat) (dts : List String) : ∀ (i0 : Nat) (rs : List Record),
    (∀ r ∈ rs, ∀ j v tvr, r.get? j = some v → dts.get? j = some tvr →
      conforms_typerule v tvr = .ok true ∨ conforms_typerule v tvr = .ok false) →
    (∃ i r, rs.get? i = some r ∧ (r.length ≠ ncols ∨
       ∃ j v tvr, r.get? j = some v ∧ dts.get? j = some tvr ∧ pyIsNone v = false ∧
         conforms_typerule v tvr = .ok false)) →
    new_records_checks.go ncols dts i0 rs ≠ .ok ()
  | _, [], _, hbad => by
      obtain ⟨i, r, hi, _⟩ := hbad
      simp at hi
  | i0, r :: rs, hnoerr, hbad => by
      unfold new_records_checks.go
      by_cases ha : r.length = ncols
      · rw [if_neg (fun hh => hh ha)]
        cases he : elemChecks i0 0 r dts with
        | error e2 => exact fun hh => Except.noConfusion hh
        | ok u =>
            cases u
            refine checks_go_not_ok ncols dts (i0 + 1) rs
              (fun rr hm => hnoerr rr (List.mem_cons_of_mem r hm)) ?_
            obtain ⟨i, rr, hi, hcase⟩ := hbad
            cases i with
            | zero =>
                cases hi
                rcases hcase with hlen | hbadelem
                · exact absurd ha hlen
                · exact absurd he (elemChecks_not_ok i0 0 r dts
                    (hnoerr r (List.mem_cons_self r rs)) hbadelem)
            | succ i => exact ⟨i, rr, by simpa using hi, hcase⟩
      · rw [if_pos ha]
        exact fun hh => Except.noConfusion hh

theorem asStrList_map (xs : List String) :
    asStrList (.VTuple (xs.map PyVal.VStr)) = .ok xs := by
  induction xs with
  | nil => rfl
  | cons x xs ih =>
      show (((PyVal.VStr x :: xs.map PyVal.VStr).mapM _ : Except PyErr (List String))) = _
      rw [List.mapM_cons]
      have ih2 : ((xs.map PyVal.VStr).mapM
          (fun x => match x with
            | PyVal.VStr s => Except.ok s
            | v => Except.error (.typeError (sq ++ pyStr v ++ sq ++ " is not a string"))) :
          Except PyErr (List String)) = .ok xs := ih
      rw [ih2]
      rfl

/-- `monoAddChecks` is `_new_records_checks` over the schema read from the
table meta. -/
theorem monoAddChecks_eq (t : MonoTable) (records : List Record) (cols dts : List String)
    (hcols : t.meta.getitem "columns" = .ok (.VTuple (cols.map PyVal.VStr)))
    (hdts : t.meta.getitem "datatypes" = .ok (.VTuple (dts.map PyVal.VStr))) :
    monoAddChecks t records = new_records_checks cols.length dts records := by
  unfold monoAddChecks
  rw [hcols]
  dsimp only
  rw [asStrList_map]
  dsimp only
  rw [hdts]
  dsimp only
  rw [asStrList_map]

/-- C2 (amended): for every batch passed to `TableMonolithic.add` whose
per-element conformance checks do not themselves raise, a record of wrong
arity produces a `ValueError` naming the record's position and a non-`None`
non-conforming field produces a `TypeError` naming record and element
positions; in either case `add` raises with the table state and database
state (in-memory records, index, metas, and every on-disk file) exactly as
they were — validation happens before any mutation.  (`None` elements are
exempt from the type check, and a raising check propagates its own
exception: `c2_counterexample` refutes the unconditional original claim.) -/
theorem c2_add_validates_before_any_mutation
    (t : MonoTable) (db : DbState) (records : List Record) (im : String) (now : PyVal)
    (cols dts : List String)
    (hcols : t.meta.getitem "columns" = .ok (.VTuple (cols.map PyVal.VStr)))
    (hdts : t.meta.getitem "datatypes" = .ok (.VTuple (dts.map PyVal.VStr)))
    (hnoerr : ∀ r ∈ records, ∀ j v tvr, r.get? j = some v → dts.get? j = some tvr →
      conforms_typerule v tvr = .ok true ∨ conforms_typerule v tvr = .ok false)
    (hbad : ∃ i r, records.get? i = some r ∧ (r.length ≠ cols.length ∨
       ∃ j v tvr, r.get? j = some v ∧ dts.get? j = some tvr ∧ pyIsNone v = false ∧
         conforms_typerule v tvr = .ok false)) :
    ∃ e, monoAdd t db records im now = .error (e, t, db) ∧
      ((∃ i r, e = .valueError (arityMsg i cols.length) ∧ records.get? i = some r ∧
          r.length ≠ cols.length) ∨
       (∃ i r j v tvr, e = .typeError (typeMsg i j v tvr) ∧ records.get? i = some r ∧
          r.get? j = some v ∧ dts.get? j = some tvr ∧ pyIsNone v = false ∧
          conforms_typerule v tvr = .ok false)) := by
  have hch : monoAddChecks t records = new_records_checks cols.length dts records :=
    monoAddChecks_eq t records cols dts hcols hdts
  have hne : new_records_checks cols.length dts records ≠ .ok () :=
    checks_go_not_ok cols.length dts 0 records hnoerr hbad
  cases hc : new_records_checks cols.length dts records with
  | ok u => cases u; exact absurd hc hne
  | error e =>
      have hcls := checks_go_err_inv cols.length dts 0 records e hnoerr hc
      refine ⟨e, ?_, by simpa using hcls⟩
      unfold monoAdd
      rw [hch, hc]

/-- Witness for C2: on the sample table (`columns = (id, name)`,
`datatypes = (int, str)`), a batch whose second record has arity 1 is
rejected with `ValueError('Record index 1 is not of length 2')` and the
state is untouched. -/
theorem c2_witness :
    monoAdd sampleTable sampleDb1 [[PyVal.VInt 1, PyVal.VStr "a"], [PyVal.VInt 2]]
      "raise" sampleNow =
      .error (.valueError (arityMsg 1 2), sampleTable, sampleDb1) := by
  obtain ⟨e, hrun, hcls⟩ :=
    c2_add_validates_before_any_mutation sampleTable sampleDb1
      [[PyVal.VInt 1, PyVal.VStr "a"], [PyVal.VInt 2]] "raise" sampleNow
      ["id", "name"] ["int", "str"] rfl rfl
      (by
        intro r hr j v tvr hv ht
        simp only [List.mem_cons, List.not_mem_nil, or_false] at hr
        rcases hr with rfl | rfl
        · match j with
          | 0 => cases hv; cases ht; exact Or.inl rfl
          | 1 => cases hv; cases ht; exact Or.inl rfl
          | (n + 2) => simp at hv
        · match j with
          | 0 => cases hv; cases ht; exact Or.inl rfl
          | (n + 1) => simp at hv)
      ⟨1, [PyVal.VInt 2], rfl, Or.inl (by decide)⟩
  have he : e = .valueError (arityMsg 1 2) := by
    rcases hcls with ⟨i, r, hmsg, hi, hlen⟩ | ⟨i, r, j, w, tvr, hmsg, hi, hw, ht, hnn, hc⟩
    · match i, hi with
      | 0, hi => cases hi; simp at hlen
      | 1, hi => cases hi; exact hmsg
      | (n + 2), hi => simp at hi
    · match i, hi with
      | 0, hi =>
          cases hi
          match j, hw, ht with
          | 0, hw, ht => cases hw; cases ht; cases hc
          | 1, hw, ht => cases hw; cases ht; cases hc
          | (n + 2), hw, ht => simp at hw
      | 1, hi =>
          cases hi
          match j, hw, ht with
          | 0, hw, ht => cases hw; cases ht; cases hc
          | (n + 1), hw, ht => simp at hw
      | (n + 2), hi => simp at hi
  rw [← he]
  exact hrun

/-- Counterexample to C2 as originally stated ("if any non-conforming
field value is present, add raises TypeError"): a `None` element does not
conform to the `str` rule of the sample table's `name` column, yet adding
`(1, None)` succeeds and stores the record; and when the conformance check
itself raises — the non-dict element `5` against the dict-rooted rule
`dict[str,int]` — `TableMonolithic.add` propagates that `AttributeError`
instead of raising the claimed positional `TypeError`. -/
theorem c2_counterexample :
    conforms_typerule .VNone "str" = .ok false ∧
    (∃ t' db',
      monoAdd sampleTable sampleDb1 [[PyVal.VInt 1, PyVal.VNone]] "skip" sampleNow =
        .ok (t', db') ∧
      t'.records = [[PyVal.VInt 1, PyVal.VNone]]) ∧
    monoAdd c2Table sampleDb1 [[PyVal.VInt 1, PyVal.VInt 5]] "raise" sampleNow =
      .error (.attributeError
          (sq ++ "5" ++ sq ++ " object has no attribute " ++ sq ++ "keys" ++ sq),
        c2Table, sampleDb1) :=
  ⟨rfl, ⟨_, _, rfl, rfl⟩, rfl⟩

/-- C6: on a monolithic table with `enforce_integrity = true` that is
initially empty (the sample table), adding two records that share a
key-tuple in one batch raises `IndexError` under
`integrity_method='raise'`, and under `'skip'` leaves the table holding
exactly the first of the two records with `nrecords = 1`. -/
theorem c6_duplicate_key_batch_raise_or_skip (a : Int) (b c : String) :
    (∃ msg t', monoAdd sampleTable sampleDb1
        [[PyVal.VInt a, PyVal.VStr b], [PyVal.VInt a, PyVal.VStr c]] "raise" sampleNow =
        .error (.indexError msg, t', sampleDb1)) ∧
    (∃ t' db', monoAdd sampleTable sampleDb1
        [[PyVal.VInt a, PyVal.VStr b], [PyVal.VInt a, PyVal.VStr c]] "skip" sampleNow =
        .ok (t', db') ∧
      t'.records = [[PyVal.VInt a, PyVal.VStr b]] ∧
      t'.meta.getitem "nrecords" = .ok (.VInt 1)) := by
  have hchk : monoAddChecks sampleTable
      [[PyVal.VInt a, PyVal.VStr b], [PyVal.VInt a, PyVal.VStr c]] = .ok () := rfl
  have hhit : pyEntriesContains [(PyVal.VTuple [PyVal.VInt a], PyVal.VTuple [PyVal.VInt 0])]
      (PyVal.VTuple [PyVal.VInt a]) = true := by
    simp [pyEntriesContains, pyValBEq, pyListBEq]
  constructor
  · have hins : monoAddInsert sampleTable
        [[PyVal.VInt a, PyVal.VStr b], [PyVal.VInt a, PyVal.VStr c]] "raise" =
        .error (.indexError
            ("index " ++ sq ++ pyRepr (.VTuple [.VInt a]) ++ sq ++ " already exists"),
          [[PyVal.VInt a, PyVal.VStr b]],
          .VDict [(.VTuple [.VInt a], .VTuple [.VInt 0])]) := by
      show monoIntegrityLoop [0] "raise" [[PyVal.VInt a, PyVal.VStr b]]
          (.VDict [(.VTuple [.VInt a], .VTuple [.VInt 0])]) [[PyVal.VInt a, PyVal.VStr c]] = _
      unfold monoIntegrityLoop
      rw [show keysGetter [0] [PyVal.VInt a, PyVal.VStr c] = .ok [PyVal.VInt a] from rfl]
      dsimp only
      rw [hhit]
      rfl
    have hrun : monoAdd sampleTable sampleDb1
        [[PyVal.VInt a, PyVal.VStr b], [PyVal.VInt a, PyVal.VStr c]] "raise" sampleNow =
        .error (.indexError
            ("index " ++ sq ++ pyRepr (.VTuple [.VInt a]) ++ sq ++ " already exists"),
          ({ meta := sampleTableMeta, keysIdx := [0],
             records := [[PyVal.VInt a, PyVal.VStr b]],
             index := .VDict [(.VTuple [.VInt a], .VTuple [.VInt 0])] } : MonoTable),
          sampleDb1) := by
      unfold monoAdd
      rw [hchk]
      dsimp only
      rw [hins]
      rfl
    exact ⟨_, _, hrun⟩
  · have hins : monoAddInsert sampleTable
        [[PyVal.VInt a, PyVal.VStr b], [PyVal.VInt a, PyVal.VStr c]] "skip" =
        .ok ([[PyVal.VInt a, PyVal.VStr b]],
          .VDict [(.VTuple [.VInt a], .VTuple [.VInt 0])]) := by
      show monoIntegrityLoop [0] "skip" [[PyVal.VInt a, PyVal.VStr b]]
          (.VDict [(.VTuple [.VInt a], .VTuple [.VInt 0])]) [[PyVal.VInt a, PyVal.VStr c]] = _
      unfold monoIntegrityLoop
      rw [show keysGetter [0] [PyVal.VInt a, PyVal.VStr c] = .ok [PyVal.VInt a] from rfl]
      dsimp only
      rw [hhit]
      rfl
    have hrun : monoAdd sampleTable sampleDb1
        [[PyVal.VInt a, PyVal.VStr b], [PyVal.VInt a, PyVal.VStr c]] "skip" sampleNow =
        monoAddFinish
          ({ meta := sampleTableMeta, keysIdx := [0],
             records := [[PyVal.VInt a, PyVal.VStr b]],
             index := .VDict [(.VTuple [.VInt a], .VTuple [.VInt 0])] } : MonoTable)
          sampleDb1 2 sampleNow := by
      unfold monoAdd
      rw [hchk]
      dsimp only
      rw [hins]
      rfl
    exact ⟨_, _, hrun.trans rfl, rfl, rfl⟩

/-- C1: `total_table_records` does NOT stay equal to the sum of all
tables' `nrecords`.  On the sample database (one table, `nrecords = 0`,
`total_table_records = 0`), a two-record batch whose second record shares
the first record's key-tuple, added with `integrity_method='skip'`, keeps
only one record (`nrecords = 1`) yet `TableMonolithic.add` adds the FULL
batch length to the database meta (`total_table_records = 2`): the stated
invariant is broken by the very `add` call the claim covers. -/
theorem c1_skip_add_desyncs_total_table_records :
    ∃ t' db',
      monoAdd sampleTable sampleDb1
        [[PyVal.VInt 1, PyVal.VStr "a"], [PyVal.VInt 1, PyVal.VStr "b"]] "skip" sampleNow =
        .ok (t', db') ∧
      db'.meta.getitem "tables" = .ok (.VTuple [.VStr "t1"]) ∧
      t'.meta.getitem "nrecords" = .ok (.VInt 1) ∧
      db'.meta.getitem "total_table_records" = .ok (.VInt 2) ∧
      PyVal.VInt 2 ≠ PyVal.VInt 1 :=
  ⟨_, _, rfl, rfl, rfl, rfl, by simp⟩

/-- C9: `generate_index_monolithic` does NOT sort the records by key-tuple
before grouping; it groups only ADJACENT equal key-tuples and a later
group overwrites the earlier one.  With `enforce_integrity = false` and
the key-tuple `(1,)` at the non-adjacent row positions 0 and 2, the index
rebuilt by `TableMonolithic.add` maps `(1,)` to `(2,)` alone instead of to
all positions `(0, 2)`. -/
theorem c9_index_rebuild_groups_without_sorting :
    (∃ t' db',
      monoAdd c9Table sampleDb1
        [[PyVal.VInt 1, PyVal.VStr "a"], [PyVal.VInt 2, PyVal.VStr "b"],
         [PyVal.VInt 1, PyVal.VStr "c"]] "raise" sampleNow = .ok (t', db') ∧
      t'.index = .VDict [(.VTuple [.VInt 1], .VTuple [.VInt 2]),
                         (.VTuple [.VInt 2], .VTuple [.VInt 1])]) ∧
    generate_index_monolithic
      [[PyVal.VInt 1, PyVal.VStr "a"], [PyVal.VInt 2, PyVal.VStr "b"],
       [PyVal.VInt 1, PyVal.VStr "c"]] [0] =
      .ok (.VDict [(.VTuple [.VInt 1], .VTuple [.VInt 2]),
                   (.VTuple [.VInt 2], .VTuple [.VInt 1])]) ∧
    keysGetter [0] [PyVal.VInt 1, PyVal.VStr "a"] = .ok [PyVal.VInt 1] ∧
    keysGetter [0] [PyVal.VInt 1, PyVal.VStr "c"] = .ok [PyVal.VInt 1] ∧
    PyVal.VTuple [.VInt 2] ≠ PyVal.VTuple [.VInt 0, .VInt 2] :=
  ⟨⟨_, _, rfl, rfl⟩, rfl, rfl, rfl, by simp⟩

/-- C10: in `_new_records_checks` an element whose value is `None` is
exempt from the per-field type check: the checks succeed whenever every
record has the right arity and every NON-`None` element conforms, even
though the rule itself rejects `None` (`conforms_typerule(None, 'str')` is
`False`); concretely, adding `(1, None)` to the sample table (`name`
column typed `str`) succeeds and stores the record. -/
theorem c10_none_elements_exempt_from_type_check :
    (∀ (ncols : Nat) (dts : List String) (records : List Record),
      (∀ i r, records.get? i = some r → r.length = ncols) →
      (∀ r ∈ records, ∀ j v tvr, r.get? j = some v → dts.get? j = some tvr →
        pyIsNone v = false → conforms_typerule v tvr = .ok true) →
      new_records_checks ncols dts records = .ok ()) ∧
    conforms_typerule .VNone "str" = .ok false ∧
    (∃ t' db',
      monoAdd sampleTable sampleDb1 [[PyVal.VInt 1, PyVal.VNone]] "raise" sampleNow =
        .ok (t', db') ∧
      t'.records = [[PyVal.VInt 1, PyVal.VNone]]) :=
  ⟨fun ncols dts records h1 h2 => checks_go_ok ncols dts 0 records h1 h2,
   rfl,
   ⟨_, _, rfl, rfl⟩⟩

/-- Counterexample to C3: `conforms_typerule` has no exception handling.
Checking the non-dict value `5` against the rule `dict[str, int]` raises
`AttributeError` (from `value.keys()`), which propagates; the result is
not `False`. -/
theorem c3_counterexample :
    conforms_typerule (.VInt 5) "dict[str, int]" =
      .error (.attributeError
        (sq ++ "5" ++ sq ++ " object has no attribute " ++ sq ++ "keys" ++ sq)) ∧
    ∀ b : Bool, conforms_typerule (.VInt 5) "dict[str, int]" ≠ .ok b := by
  refine ⟨rfl, ?_⟩
  intro b h
  rw [show conforms_typerule (.VInt 5) "dict[str, int]" =
      .error (.attributeError
        (sq ++ "5" ++ sq ++ " object has no attribute " ++ sq ++ "keys" ++ sq)) from rfl] at h
  exact Except.noConfusion h

/-- C3 (amended): `_typechecks.conforms_typerule` catches NO exception:
checking any integer value against a dict rule raises `AttributeError`
(`value.keys()` on a non-dict) and the exception propagates to the caller
instead of being treated as "does not conform". -/
theorem c3_amended_dict_rule_on_int_raises (n : Int) :
    ∃ msg, conforms_typerule (.VInt n) "dict[str, int]" = .error (.attributeError msg) :=
  ⟨_, rfl⟩

/-- Counterexample to C4: an ISO-8601 string parseable at second precision
does NOT conform to `datetime_second`; `conforms_typerule` returns
`False`, not `True` as claimed. -/
theorem c4_counterexample :
    conforms_typerule (.VStr "2020-01-02T03:04:05Z") "datetime_second" = .ok false ∧
    (Except.ok false : Except PyErr Bool) ≠ .ok true :=
  ⟨rfl, by simp⟩

/-- C4 (amended): for the rules `date`, `datetime_second` and
`datetime_microsecond`, `_typechecks.conforms_typerule` performs a native
`isinstance` check only: every string (ISO-8601 or not) is rejected, while
already-native date/datetime objects are accepted. -/
theorem c4_amended_date_rules_native_isinstance_only :
    (∀ s : String, conforms_typerule (.VStr s) "date" = .ok false) ∧
    (∀ s : String, conforms_typerule (.VStr s) "datetime_second" = .ok false) ∧
    (∀ s : String, conforms_typerule (.VStr s) "datetime_microsecond" = .ok false) ∧
    conforms_typerule (.VDate 2020 1 2) "date" = .ok true ∧
    conforms_typerule (.VDateTime 2020 1 2 3 4 5 0) "datetime_second" = .ok true ∧
    conforms_typerule (.VDateTime 2020 1 2 3 4 5 6) "datetime_microsecond" = .ok true :=
  ⟨fun _ => rfl, fun _ => rfl, fun _ => rfl, rfl, rfl, rfl⟩

/-- Counterexample to C5: `apply_typerule` does not support union rules at
all.  Converting `"5"` under `"int|~str"` does not return the string
`"5"`; before any conversion, any rule containing `|` is rejected with
`ValueError('typerule conversion does not support OR operator')`. -/
theorem c5_counterexample :
    apply_typerule (.VStr "5") "int|~str" =
      .error (.valueError "typerule conversion does not support OR operator") ∧
    ∀ v : PyVal, apply_typerule (.VStr "5") "int|~str" ≠ .ok v := by
  refine ⟨rfl, ?_⟩
  intro v h
  rw [show apply_typerule (.VStr "5") "int|~str" =
      .error (.valueError "typerule conversion does not support OR operator") from rfl] at h
  exact Except.noConfusion h

/-- C5 (amended): `_typechecks.apply_typerule` rejects every rule that
contains the OR operator `|` (after space stripping and lowercasing), for
every input value, with
`ValueError('typerule conversion does not support OR operator')`; no
primary-variant selection is performed. -/
theorem c5_amended_union_rules_rejected (v : PyVal) (tr : String)
    (h : 0 < countChar (normRule tr) '|') :
    apply_typerule v tr =
      .error (.valueError "typerule conversion does not support OR operator") := by
  unfold apply_typerule
  dsimp only
  rw [if_pos h]

/-- Witness for the amended C5 at a concrete input: the rule `str|~int`
contains `|` and conversion of `"7"` under it is rejected. -/
theorem c5_amended_witness :
    0 < countChar (normRule "str|~int") '|' ∧
    apply_typerule (.VStr "7") "str|~int" =
      .error (.valueError "typerule conversion does not support OR operator") :=
  ⟨by decide, c5_amended_union_rules_rejected (.VStr "7") "str|~int" (by decide)⟩

/-- Counterexample to C7: after the sample `create_table('t1', ...)` call
the in-memory database meta lists `t1`, but the on-disk
`database_meta.json` still holds the pre-creation document whose `tables`
entry is the empty tuple: `create_table` never persists the updated
database meta. -/
theorem c7_counterexample :
    create_table sampleDb0 "t1" ["id", "name"] ["int", "str"] ["id"]
      .VNone "monolithic" .VNone sampleNow = .ok (.mono sampleTable, sampleDb1) ∧
    sampleDb1.meta.getitem "tables" = .ok (.VTuple [.VStr "t1"]) ∧
    assocGet sampleDb0.disk.files "/tmp/database/database_meta.json" = some sampleDbMetaDoc ∧
    assocGet sampleDb1.disk.files "/tmp/database/database_meta.json" = some sampleDbMetaDoc ∧
    pySubscript sampleDbMetaDoc (.VStr "tables") = .ok (.VTuple []) ∧
    PyVal.VTuple [] ≠ PyVal.VTuple [.VStr "t1"] :=
  ⟨rfl, rfl, rfl, rfl, rfl, by simp⟩

/-- C7 (amended): every successful `DatabaseManager.create_table` call
updates the database `Meta` IN MEMORY ONLY — merges the new name into
`tables`, sets `last_modified`, merges the table's meta-file location into
`table_meta_locations` — and the only file whose on-disk content changes
is the new table's own meta file: the updated database meta is NOT
persisted to disk. -/
theorem c7_create_table_updates_db_meta_in_memory_only
    (db : DbState) (name : String) (columns datatypes keys : List String)
    (foreign : PyVal) (storage_type : String) (splice_keys : PyVal) (now : PyVal)
    (out : TableInst × DbState)
    (h : create_table db name columns datatypes keys foreign storage_type splice_keys now =
      .ok out) :
    ∃ dm1 dm2 mlocV mloc,
      db.meta.edit "tables" (.VTuple [.VStr name]) = .ok dm1 ∧
      dm1.edit "last_modified" now = .ok dm2 ∧
      dm2.edit "table_meta_locations" (.VDict [(.VStr name, mlocV)]) = .ok out.2.meta ∧
      asStr mlocV = .ok mloc ∧
      ∀ p, p ≠ mloc → assocGet out.2.disk.files p = assocGet db.disk.files p := by
  unfold create_table at h
  dsimp only at h
  repeat' split at h
  all_goals try exact Except.noConfusion h
  cases h
  dsimp only
  refine ⟨_, _, _, _, by assumption, by assumption, by assumption, by assumption, ?_⟩
  intro p hp
  rw [diskWrite, diskWrite]
  dsimp only
  rw [assocGet_assocUpsert_ne _ _ _ _ hp, assocGet_assocUpsert_ne _ _ _ _ hp]
  rw [diskMkdir_files _ _ _ (by assumption)]

/-- Witness for the amended C7 at the sample state: the sample
`create_table` call satisfies the in-memory-only update law. -/
theorem c7_amended_witness :
    ∃ dm1 dm2 mlocV mloc,
      sampleDb0.meta.edit "tables" (.VTuple [.VStr "t1"]) = .ok dm1 ∧
      dm1.edit "last_modified" sampleNow = .ok dm2 ∧
      dm2.edit "table_meta_locations" (.VDict [(.VStr "t1", mlocV)]) = .ok sampleDb1.meta ∧
      asStr mlocV = .ok mloc ∧
      ∀ p, p ≠ mloc → assocGet sampleDb1.disk.files p = assocGet sampleDb0.disk.files p :=
  c7_create_table_updates_db_meta_in_memory_only sampleDb0 "t1" ["id", "name"] ["int", "str"]
    ["id"] .VNone "monolithic" .VNone sampleNow (.mono sampleTable, sampleDb1) rfl

/-- C8: for a `Meta` field whose type rule is tuple-rooted, with current
stored value `("a",)`, `edit(key, ("b",))` concatenates to `("a", "b")`
while `replace(key, ("b",))` overwrites to `("b",)`; and when the current
value is not a tuple (e.g. the default `None`), `edit` replaces instead of
merging. -/
theorem c8_edit_concatenates_replace_overwrites
    (m : Meta) (k tr : String)
    (htr : m.template.get_typerule k = .ok tr)
    (hroot : tr.data.takeWhile (fun c => c ≠ '[') = "tuple".data)
    (hbr : '[' ∈ tr.data) :
    (∀ m', assocGet m.metadata k = some (.VTuple [.VStr "a"]) →
      m.edit k (.VTuple [.VStr "b"]) = .ok m' →
      assocGet m'.metadata k = some (.VTuple [.VStr "a", .VStr "b"])) ∧
    (∀ m', m.replace k (.VTuple [.VStr "b"]) = .ok m' →
      assocGet m'.metadata k = some (.VTuple [.VStr "b"])) ∧
    (∀ m', assocGet m.metadata k = some .VNone →
      m.edit k (.VTuple [.VStr "b"]) = .ok m' →
      assocGet m'.metadata k = some (.VTuple [.VStr "b"])) :=
  ⟨fun m' hcur h => edit_tuple_merge m k [.VStr "a"] [.VStr "b"] m' tr htr hroot hbr hcur h,
   fun m' h => replace_value m k (.VTuple [.VStr "b"]) m' h,
   fun m' hcur h => edit_tuple_none_replace m k [.VStr "b"] m' tr htr hroot hbr hcur h⟩

/-- Witness for C8 at a concrete `Meta`: the sample database meta with
`tables = ("a",)`, whose `tables` rule is `tuple[str]`; the merge and
overwrite laws hold there and the `edit` call concretely succeeds with the
concatenated value. -/
theorem c8_witness :
    c8SampleMeta.template.get_typerule "tables" = .ok "tuple[str]" ∧
    ((∀ m', assocGet c8SampleMeta.metadata "tables" = some (.VTuple [.VStr "a"]) →
       c8SampleMeta.edit "tables" (.VTuple [.VStr "b"]) = .ok m' →
       assocGet m'.metadata "tables" = some (.VTuple [.VStr "a", .VStr "b"])) ∧
     (∀ m', c8SampleMeta.replace "tables" (.VTuple [.VStr "b"]) = .ok m' →
       assocGet m'.metadata "tables" = some (.VTuple [.VStr "b"])) ∧
     (∀ m', assocGet c8SampleMeta.metadata "tables" = some .VNone →
       c8SampleMeta.edit "tables" (.VTuple [.VStr "b"]) = .ok m' →
       assocGet m'.metadata "tables" = some (.VTuple [.VStr "b"]))) ∧
    (∃ m', c8SampleMeta.edit "tables" (.VTuple [.VStr "b"]) = .ok m' ∧
      assocGet m'.metadata "tables" = some (.VTuple [.VStr "a", .VStr "b"])) :=
  ⟨rfl,
   c8_edit_concatenates_replace_overwrites c8SampleMeta "tables" "tuple[str]" rfl
     (by decide) (by decide),
   ⟨_, rfl, rfl⟩⟩

end Prognosec
